import Mathlib

/-!
Shallow embedding of the Motologix deterministic scoring pipeline
(src/engine/normalizer.ts, src/engine/scoring.ts, src/engine/validator.ts,
src/types DEFAULT_WEIGHTS) in Lean 4, together with theorems settling the
frozen claims about it.

Modelling conventions:
  - JavaScript numbers are modelled as exact rationals (ℚ).  All constants
    appearing in the scoring rules are small decimals, so every arithmetic
    step of the pipeline is exact.
  - `Math.round` rounds half toward positive infinity, i.e. it is
    `fun x => ⌊x + 1/2⌋`; we embed it computably as `jsRound` below.
  - TypeScript optional fields become `Option` fields; the JavaScript
    truthiness tests the source performs on them (`!x`, `x ? _ : _`,
    `x && _`) are embedded by `truthy` / `strPresent` / `numPos`, which are
    faithful to JS semantics for the types involved (0 and "" are falsy).
  - `Array.prototype.sort` with a numeric comparator is, per the ECMAScript
    specification, a stable sort; we embed the two sort sites with the
    stable `List.insertionSort` over the corresponding non-strict relation.
  - String unions become inductive types; `Partial<Motorcycle>` becomes a
    structure of `Option` fields.  The `id` field (filled by
    `crypto.randomUUID()`, nondeterministic and never read by the engine)
    is not modelled.
-/

set_option maxRecDepth 4000

namespace Motologix

/-- Computable floor of a rational: `q.num / q.den` with integer (Euclidean)
division, which agrees with `Int.floor` because the denominator is positive. -/
def ratFloor (q : ℚ) : ℤ := q.num / q.den

theorem ratFloor_eq (q : ℚ) : ratFloor q = ⌊q⌋ := Rat.floor_def.symm

/-- JavaScript Math.round: round half toward positive infinity. -/
def jsRound (q : ℚ) : ℤ := ratFloor (q + 1/2)

/-- Round to nearest 0.5 (normalizer.ts roundHalf):
Math.round(value * 2) / 2. -/
def roundHalf (value : ℚ) : ℚ := (jsRound (value * 2) : ℚ) / 2

/-- Clamp a value between min and max (normalizer.ts clamp):
Math.min(max, Math.max(min, value)). -/
def clamp (value mn mx : ℚ) : ℚ := min mx (max mn value)

/-- JavaScript truthiness of an optional number (undefined and 0 are falsy). -/
def truthy (o : Option ℚ) : Prop := o.getD 0 ≠ 0

instance (o : Option ℚ) : Decidable (truthy o) := by unfold truthy; infer_instance

/-- JavaScript truthiness of an optional string (undefined and "" are falsy). -/
def strPresent (o : Option String) : Bool :=
  match o with
  | none => false
  | some s => !s.isEmpty

/-- JavaScript test `!(x) || x <= 0` negated: the optional number is present
and positive. -/
def numPos (o : Option ℚ) : Bool :=
  match o with
  | none => false
  | some x => decide (0 < x)

/-- JavaScript `x || d` for an optional number (0 falls back to the default). -/
def numOr (o : Option ℚ) (d : ℚ) : ℚ :=
  match o with
  | none => d
  | some x => if x = 0 then d else x

/-- JavaScript `s || d` for an optional string ("" falls back to the default). -/
def strOr (o : Option String) (d : String) : String :=
  match o with
  | none => d
  | some s => if s.isEmpty then d else s

/-- Prefix test on character lists, auxiliary for `strIncludes`. -/
def charsStartWith : List Char → List Char → Bool
  | [], _ => true
  | _ :: _, [] => false
  | p :: ps, c :: cs => p == c && charsStartWith ps cs

/-- Substring test on character lists, auxiliary for `strIncludes`. -/
def charsInclude (pat : List Char) : List Char → Bool
  | [] => pat.isEmpty
  | c :: cs => charsStartWith pat (c :: cs) || charsInclude pat cs

/-- JavaScript String.prototype.includes. -/
def strIncludes (s pat : String) : Bool := charsInclude pat.toList s.toList

-- ============================================
-- Data model (src/types, "Motologix Type Definitions")
-- ============================================

inductive BrakeType where
  | disc
  | drum
deriving DecidableEq

inductive AbsType where
  | none
  | singleChannel
  | dualChannel
deriving DecidableEq

inductive RearSuspensionType where
  | monoshock
  | twin
  | other
deriving DecidableEq

inductive HandlebarType where
  | clipOn
  | standard
  | raised
deriving DecidableEq

inductive Confidence where
  | high
  | medium
  | low
deriving DecidableEq

inductive PillionMode where
  | primary
  | secondary
  | none
deriving DecidableEq

/-- VehicleRecord (interface Motorcycle in src/types).  The nondeterministic
`id` field is not modelled; all other fields are kept. -/
structure Motorcycle where
  brand : String
  model : String
  variant : Option String
  year : Option ℤ
  engineCC : ℚ
  power : ℚ
  torque : ℚ
  kerbWeight : ℚ
  seatHeight : ℚ
  wheelbase : ℚ
  groundClearance : ℚ
  fuelCapacity : ℚ
  frontBrake : BrakeType
  rearBrake : BrakeType
  absType : AbsType
  frontTyreWidth : ℚ
  rearTyreWidth : ℚ
  frontSuspension : String
  rearSuspension : RearSuspensionType
  rearSuspensionTravel : Option ℚ
  handlebarType : Option HandlebarType
  exShowroomPrice : Option ℚ
  reviewSummary : Option String
  heatManagementRating : Option ℚ
  confidence : Confidence
  searchQuery : String
deriving DecidableEq

/-- Partial&lt;Motorcycle&gt;: every field optional. -/
structure PartialMotorcycle where
  brand : Option String
  model : Option String
  variant : Option String
  year : Option ℤ
  engineCC : Option ℚ
  power : Option ℚ
  torque : Option ℚ
  kerbWeight : Option ℚ
  seatHeight : Option ℚ
  wheelbase : Option ℚ
  groundClearance : Option ℚ
  fuelCapacity : Option ℚ
  frontBrake : Option BrakeType
  rearBrake : Option BrakeType
  absType : Option AbsType
  frontTyreWidth : Option ℚ
  rearTyreWidth : Option ℚ
  frontSuspension : Option String
  rearSuspension : Option RearSuspensionType
  rearSuspensionTravel : Option ℚ
  handlebarType : Option HandlebarType
  exShowroomPrice : Option ℚ
  reviewSummary : Option String
  heatManagementRating : Option ℚ
  confidence : Option Confidence
  searchQuery : Option String
deriving DecidableEq

/-- View a full record as a partial one (TypeScript does this implicitly by
structural subtyping when a Motorcycle is passed to validateMotorcycle). -/
def toPartialMotorcycle (b : Motorcycle) : PartialMotorcycle where
  brand := some b.brand
  model := some b.model
  variant := b.variant
  year := b.year
  engineCC := some b.engineCC
  power := some b.power
  torque := some b.torque
  kerbWeight := some b.kerbWeight
  seatHeight := some b.seatHeight
  wheelbase := some b.wheelbase
  groundClearance := some b.groundClearance
  fuelCapacity := some b.fuelCapacity
  frontBrake := some b.frontBrake
  rearBrake := some b.rearBrake
  absType := some b.absType
  frontTyreWidth := some b.frontTyreWidth
  rearTyreWidth := some b.rearTyreWidth
  frontSuspension := some b.frontSuspension
  rearSuspension := some b.rearSuspension
  rearSuspensionTravel := b.rearSuspensionTravel
  handlebarType := b.handlebarType
  exShowroomPrice := b.exShowroomPrice
  reviewSummary := b.reviewSummary
  heatManagementRating := b.heatManagementRating
  confidence := some b.confidence
  searchQuery := some b.searchQuery

/-- FactorScores (ten named scores). -/
structure FactorScores where
  dailyTrafficEase : ℚ
  brakingSafetyConfidence : ℚ
  primaryPillionComfort : ℚ
  highwayStability : ℚ
  riderComfort : ℚ
  suspensionCompliance : ℚ
  funEngagement : ℚ
  heatManagement : ℚ
  ownershipPracticality : ℚ
  longTermSuitability : ℚ
deriving DecidableEq

/-- FactorWeights (ten named weights). -/
structure FactorWeights where
  dailyTrafficEase : ℚ
  brakingSafetyConfidence : ℚ
  primaryPillionComfort : ℚ
  highwayStability : ℚ
  riderComfort : ℚ
  suspensionCompliance : ℚ
  funEngagement : ℚ
  heatManagement : ℚ
  ownershipPracticality : ℚ
  longTermSuitability : ℚ
deriving DecidableEq

/-- FactorKey: the closed set of the ten factor names. -/
inductive FactorKey where
  | dailyTrafficEase
  | brakingSafetyConfidence
  | primaryPillionComfort
  | highwayStability
  | riderComfort
  | suspensionCompliance
  | funEngagement
  | heatManagement
  | ownershipPracticality
  | longTermSuitability
deriving DecidableEq, Fintype

/-- Object key order of a FactorScores / FactorWeights record. -/
def factorKeys : List FactorKey :=
  [FactorKey.dailyTrafficEase, FactorKey.brakingSafetyConfidence,
   FactorKey.primaryPillionComfort, FactorKey.highwayStability,
   FactorKey.riderComfort, FactorKey.suspensionCompliance,
   FactorKey.funEngagement, FactorKey.heatManagement,
   FactorKey.ownershipPracticality, FactorKey.longTermSuitability]

def getScore (s : FactorScores) : FactorKey → ℚ
  | FactorKey.dailyTrafficEase => s.dailyTrafficEase
  | FactorKey.brakingSafetyConfidence => s.brakingSafetyConfidence
  | FactorKey.primaryPillionComfort => s.primaryPillionComfort
  | FactorKey.highwayStability => s.highwayStability
  | FactorKey.riderComfort => s.riderComfort
  | FactorKey.suspensionCompliance => s.suspensionCompliance
  | FactorKey.funEngagement => s.funEngagement
  | FactorKey.heatManagement => s.heatManagement
  | FactorKey.ownershipPracticality => s.ownershipPracticality
  | FactorKey.longTermSuitability => s.longTermSuitability

def getWeight (w : FactorWeights) : FactorKey → ℚ
  | FactorKey.dailyTrafficEase => w.dailyTrafficEase
  | FactorKey.brakingSafetyConfidence => w.brakingSafetyConfidence
  | FactorKey.primaryPillionComfort => w.primaryPillionComfort
  | FactorKey.highwayStability => w.highwayStability
  | FactorKey.riderComfort => w.riderComfort
  | FactorKey.suspensionCompliance => w.suspensionCompliance
  | FactorKey.funEngagement => w.funEngagement
  | FactorKey.heatManagement => w.heatManagement
  | FactorKey.ownershipPracticality => w.ownershipPracticality
  | FactorKey.longTermSuitability => w.longTermSuitability

/-- The TypeScript property name of a factor key. -/
def factorKeyName : FactorKey → String
  | FactorKey.dailyTrafficEase => "dailyTrafficEase"
  | FactorKey.brakingSafetyConfidence => "brakingSafetyConfidence"
  | FactorKey.primaryPillionComfort => "primaryPillionComfort"
  | FactorKey.highwayStability => "highwayStability"
  | FactorKey.riderComfort => "riderComfort"
  | FactorKey.suspensionCompliance => "suspensionCompliance"
  | FactorKey.funEngagement => "funEngagement"
  | FactorKey.heatManagement => "heatManagement"
  | FactorKey.ownershipPracticality => "ownershipPracticality"
  | FactorKey.longTermSuitability => "longTermSuitability"

/-- Human label of a factor (scoring.ts factorLabels). -/
def factorLabel : FactorKey → String
  | FactorKey.dailyTrafficEase => "Daily Traffic Ease"
  | FactorKey.brakingSafetyConfidence => "Braking & Safety"
  | FactorKey.primaryPillionComfort => "Pillion Comfort"
  | FactorKey.highwayStability => "Highway Stability"
  | FactorKey.riderComfort => "Rider Comfort"
  | FactorKey.suspensionCompliance => "Suspension Quality"
  | FactorKey.funEngagement => "Fun & Engagement"
  | FactorKey.heatManagement => "Heat Management"
  | FactorKey.ownershipPracticality => "Ownership Practicality"
  | FactorKey.longTermSuitability => "Long-Term Suitability"

/-- Per-factor confidence map (Record&lt;FactorKey, Confidence&gt;). -/
structure FactorConfidences where
  dailyTrafficEase : Confidence
  brakingSafetyConfidence : Confidence
  primaryPillionComfort : Confidence
  highwayStability : Confidence
  riderComfort : Confidence
  suspensionCompliance : Confidence
  funEngagement : Confidence
  heatManagement : Confidence
  ownershipPracticality : Confidence
  longTermSuitability : Confidence
deriving DecidableEq

def getConfidence (c : FactorConfidences) : FactorKey → Confidence
  | FactorKey.dailyTrafficEase => c.dailyTrafficEase
  | FactorKey.brakingSafetyConfidence => c.brakingSafetyConfidence
  | FactorKey.primaryPillionComfort => c.primaryPillionComfort
  | FactorKey.highwayStability => c.highwayStability
  | FactorKey.riderComfort => c.riderComfort
  | FactorKey.suspensionCompliance => c.suspensionCompliance
  | FactorKey.funEngagement => c.funEngagement
  | FactorKey.heatManagement => c.heatManagement
  | FactorKey.ownershipPracticality => c.ownershipPracticality
  | FactorKey.longTermSuitability => c.longTermSuitability

/-- ScoredMotorcycle. -/
structure ScoredMotorcycle where
  motorcycle : Motorcycle
  factorScores : FactorScores
  finalScore : ℤ
  rank : ℕ
  confidences : FactorConfidences
deriving DecidableEq

/-- DEFAULT_WEIGHTS (src/types). -/
def DEFAULT_WEIGHTS : FactorWeights where
  dailyTrafficEase := 0.12
  brakingSafetyConfidence := 0.15
  primaryPillionComfort := 0.15
  highwayStability := 0.1
  riderComfort := 0.1
  suspensionCompliance := 0.1
  funEngagement := 0.08
  heatManagement := 0.05
  ownershipPracticality := 0.08
  longTermSuitability := 0.07

-- ============================================
-- Normalizer (src/engine/normalizer.ts)
-- ============================================

/-- Daily Traffic Ease. -/
def scoreDailyTrafficEase (bike : Motorcycle) : ℚ :=
  let score : ℚ := 5
  let score := score +
    (if bike.kerbWeight < 140 then 2
     else if bike.kerbWeight < 160 then 1.5
     else if bike.kerbWeight < 175 then 0.5
     else if bike.kerbWeight > 200 then -1.5
     else if bike.kerbWeight > 185 then -0.5
     else 0)
  let score := score +
    (if bike.seatHeight < 770 then 1
     else if bike.seatHeight < 790 then 0.5
     else if bike.seatHeight > 830 then -1
     else if bike.seatHeight > 810 then -0.5
     else 0)
  let pwr := bike.power / bike.kerbWeight * 100
  let score := score +
    (if 6 ≤ pwr ∧ pwr ≤ 10 then 1
     else if pwr > 12 then -0.5
     else 0)
  let score := score +
    (if bike.engineCC < 250 then 0.5
     else if bike.engineCC > 500 then -0.5
     else 0)
  clamp (roundHalf score) 1 10

/-- Braking and Safety Confidence. -/
def scoreBrakingSafetyConfidence (bike : Motorcycle) : ℚ :=
  let score : ℚ := 3
  let score := score + (if bike.frontBrake = BrakeType.disc then 2 else 0)
  let score := score + (if bike.rearBrake = BrakeType.disc then 1 else 0)
  let score := score +
    (if bike.absType = AbsType.dualChannel then 3
     else if bike.absType = AbsType.singleChannel then 1.5
     else 0)
  let score := score +
    (if bike.rearTyreWidth ≥ 150 then 0.5
     else if bike.rearTyreWidth ≥ 140 then 0.25
     else 0)
  let score := score +
    (if bike.frontTyreWidth ≥ 120 then 0.5
     else if bike.frontTyreWidth ≥ 110 then 0.25
     else 0)
  clamp (roundHalf score) 1 10

/-- Pillion Comfort (parameterized by pillion mode). -/
def scorePrimaryPillionComfort (bike : Motorcycle) (pillionMode : PillionMode) : ℚ :=
  let t := bike.rearSuspensionTravel.getD 0
  let score : ℚ := 5
  let score := score + (if bike.rearSuspension = RearSuspensionType.monoshock then 1 else 0)
  let score := score +
    (if truthy bike.rearSuspensionTravel ∧ t ≥ 130 then 1
     else if truthy bike.rearSuspensionTravel ∧ t ≥ 110 then 0.5
     else 0)
  let score := score +
    (if bike.kerbWeight ≥ 180 then 1
     else if bike.kerbWeight ≥ 165 then 0.5
     else if bike.kerbWeight < 140 then -0.5
     else 0)
  let score := score +
    (if bike.wheelbase ≥ 1420 then 1
     else if bike.wheelbase ≥ 1380 then 0.5
     else if bike.wheelbase < 1320 then -0.5
     else 0)
  let score := score +
    (if bike.seatHeight < 790 then 0.5
     else if bike.seatHeight > 830 then -0.5
     else 0)
  let score :=
    if pillionMode = PillionMode.secondary then
      let score := score + (if bike.kerbWeight ≥ 175 then 0.5 else 0)
      let score := score + (if bike.rearSuspension = RearSuspensionType.monoshock then 0.5 else 0)
      score + (if bike.absType = AbsType.dualChannel then 0.5 else 0)
    else score
  clamp (roundHalf score) 1 10

/-- Highway Stability. -/
def scoreHighwayStability (bike : Motorcycle) : ℚ :=
  let score : ℚ := 5
  let score := score +
    (if bike.wheelbase ≥ 1430 then 1.5
     else if bike.wheelbase ≥ 1400 then 1
     else if bike.wheelbase ≥ 1370 then 0.5
     else if bike.wheelbase < 1320 then -1
     else 0)
  let score := score +
    (if bike.kerbWeight ≥ 180 then 1
     else if bike.kerbWeight ≥ 165 then 0.5
     else if bike.kerbWeight < 145 then -0.5
     else 0)
  let score := score +
    (if bike.power ≥ 35 then 1
     else if bike.power ≥ 25 then 0.5
     else if bike.power < 18 then -0.5
     else 0)
  let score := score +
    (if bike.rearTyreWidth ≥ 150 then 0.5
     else if bike.rearTyreWidth ≥ 140 then 0.25
     else 0)
  clamp (roundHalf score) 1 10

/-- Rider Comfort (long rides). -/
def scoreRiderComfort (bike : Motorcycle) : ℚ :=
  let score : ℚ := 5
  let score := score +
    (if bike.handlebarType = some HandlebarType.raised then 1
     else if bike.handlebarType = some HandlebarType.standard then 0.5
     else if bike.handlebarType = some HandlebarType.clipOn then -1
     else 0)
  let score := score +
    (if bike.seatHeight ≥ 780 ∧ bike.seatHeight ≤ 820 then 0.5
     else if bike.seatHeight > 840 then -0.5
     else 0)
  let score := score +
    (if bike.fuelCapacity ≥ 15 then 1
     else if bike.fuelCapacity ≥ 12 then 0.5
     else if bike.fuelCapacity < 10 then -0.5
     else 0)
  let score := score + (if bike.rearSuspension = RearSuspensionType.monoshock then 0.5 else 0)
  let score := score +
    (if bike.groundClearance ≥ 180 then 0.5
     else if bike.groundClearance ≥ 160 then 0.25
     else if bike.groundClearance < 140 then -0.5
     else 0)
  clamp (roundHalf score) 1 10

/-- Suspension Compliance. -/
def scoreSuspensionCompliance (bike : Motorcycle) : ℚ :=
  let t := bike.rearSuspensionTravel.getD 0
  let score : ℚ := 5
  let score := score +
    (if bike.rearSuspension = RearSuspensionType.monoshock then 1.5
     else if bike.rearSuspension = RearSuspensionType.twin then 0.5
     else 0)
  let score := score +
    (if truthy bike.rearSuspensionTravel ∧ t ≥ 140 then 1
     else if truthy bike.rearSuspensionTravel ∧ t ≥ 120 then 0.5
     else if truthy bike.rearSuspensionTravel ∧ t < 100 then -0.5
     else 0)
  let score := score +
    (if strIncludes bike.frontSuspension.toLower "usd" then 1
     else if strIncludes bike.frontSuspension.toLower "telescopic" then 0.25
     else 0)
  let score := score +
    (if bike.groundClearance ≥ 200 then 1
     else if bike.groundClearance ≥ 175 then 0.5
     else if bike.groundClearance ≥ 160 then 0.25
     else if bike.groundClearance < 140 then -1
     else 0)
  clamp (roundHalf score) 1 10

/-- Fun and Engagement. -/
def scoreFunEngagement (bike : Motorcycle) : ℚ :=
  let score : ℚ := 5
  let pwr := bike.power / bike.kerbWeight * 100
  let score := score +
    (if pwr ≥ 12 then 2
     else if pwr ≥ 10 then 1.5
     else if pwr ≥ 8 then 1
     else if pwr ≥ 6 then 0.5
     else if pwr < 5 then -0.5
     else 0)
  let score := score +
    (if bike.engineCC ≥ 400 then 1
     else if bike.engineCC ≥ 300 then 0.5
     else if bike.engineCC < 200 then -0.5
     else 0)
  let score := score +
    (if bike.kerbWeight < 160 then 0.5
     else if bike.kerbWeight > 200 then -0.5
     else 0)
  let score := score + (if bike.handlebarType = some HandlebarType.clipOn then 0.5 else 0)
  clamp (roundHalf score) 1 10

/-- Heat Management fallback when no usable AI-derived rating is present. -/
def scoreHeatManagementBase (bike : Motorcycle) : ℚ :=
  let score : ℚ := 6
  let score := score +
    (if bike.engineCC ≥ 400 then -1
     else if bike.engineCC ≥ 300 then -0.5
     else if bike.engineCC < 200 then 0.5
     else 0)
  let score := score +
    (if bike.power ≥ 40 then -0.5
     else if bike.power < 20 then 0.5
     else 0)
  clamp (roundHalf score) 1 10

/-- Heat Management: use the AI-derived rating verbatim (rounded) when it is
present (truthy) and in [1,10]; otherwise fall back to the baseline rules. -/
def scoreHeatManagement (bike : Motorcycle) : ℚ :=
  match bike.heatManagementRating with
  | some r => if r ≠ 0 ∧ 1 ≤ r ∧ r ≤ 10 then roundHalf r else scoreHeatManagementBase bike
  | none => scoreHeatManagementBase bike

/-- Ownership Practicality. -/
def scoreOwnershipPracticality (bike : Motorcycle) : ℚ :=
  let brand := bike.brand.toLower
  let p := bike.exShowroomPrice.getD 0
  let score : ℚ := 5
  let score := score +
    (if strIncludes brand "hero" || strIncludes brand "honda" ||
        strIncludes brand "tvs" || strIncludes brand "bajaj" then (1.5 : ℚ)
     else if strIncludes brand "royal enfield" || strIncludes brand "suzuki" then 1
     else if strIncludes brand "yamaha" || strIncludes brand "ktm" then 0.5
     else if strIncludes brand "kawasaki" || strIncludes brand "benelli" ||
        strIncludes brand "triumph" then -0.5
     else 0)
  let score := score +
    (if truthy bike.exShowroomPrice then
       (if p < 150000 then (0.5 : ℚ)
        else if p > 300000 then -0.5
        else if p > 500000 then -1
        else 0)
     else 0)
  clamp (roundHalf score) 1 10

/-- Long-Term Suitability. -/
def scoreLongTermSuitability (bike : Motorcycle) : ℚ :=
  let brand := bike.brand.toLower
  let score : ℚ := 5
  let score := score +
    (if bike.engineCC ≥ 250 ∧ bike.engineCC ≤ 500 then 1
     else if bike.engineCC ≥ 200 ∧ bike.engineCC ≤ 600 then 0.5
     else if bike.engineCC < 150 then -0.5
     else if bike.engineCC > 700 then -0.5
     else 0)
  let score := score + (if bike.power ≥ 20 ∧ bike.power ≤ 45 then 0.5 else 0)
  let score := score +
    (if strIncludes brand "honda" || strIncludes brand "royal enfield" then (1 : ℚ)
     else if strIncludes brand "hero" || strIncludes brand "tvs" then 0.5
     else 0)
  let score := score + (if bike.absType = AbsType.dualChannel then 0.5 else 0)
  let score := score + (if bike.fuelCapacity ≥ 14 then 0.5 else 0)
  let score := score + (if bike.groundClearance ≥ 170 ∧ bike.kerbWeight ≤ 185 then 0.5 else 0)
  clamp (roundHalf score) 1 10

/-- Calculate all factor scores for a motorcycle (normalizer.ts
normalizeMotorcycle). -/
def normalizeMotorcycle (bike : Motorcycle) (pillionMode : PillionMode) : FactorScores where
  dailyTrafficEase := scoreDailyTrafficEase bike
  brakingSafetyConfidence := scoreBrakingSafetyConfidence bike
  primaryPillionComfort := scorePrimaryPillionComfort bike pillionMode
  highwayStability := scoreHighwayStability bike
  riderComfort := scoreRiderComfort bike
  suspensionCompliance := scoreSuspensionCompliance bike
  funEngagement := scoreFunEngagement bike
  heatManagement := scoreHeatManagement bike
  ownershipPracticality := scoreOwnershipPracticality bike
  longTermSuitability := scoreLongTermSuitability bike

/-- One confidence downgrade step, as written twice in getFactorConfidences:
high becomes medium, anything else becomes low. -/
def downgrade (c : Confidence) : Confidence :=
  if c = Confidence.high then Confidence.medium else Confidence.low

/-- Per-factor confidence levels (normalizer.ts getFactorConfidences). -/
def getFactorConfidences (bike : Motorcycle) : FactorConfidences :=
  let baseConfidence := bike.confidence
  let confidences : FactorConfidences :=
    { dailyTrafficEase := baseConfidence
      brakingSafetyConfidence := baseConfidence
      primaryPillionComfort := baseConfidence
      highwayStability := baseConfidence
      riderComfort := baseConfidence
      suspensionCompliance := baseConfidence
      funEngagement := baseConfidence
      heatManagement := if truthy bike.heatManagementRating then baseConfidence else Confidence.low
      ownershipPracticality := Confidence.medium
      longTermSuitability := Confidence.medium }
  let confidences :=
    if truthy bike.rearSuspensionTravel then confidences
    else { confidences with
            suspensionCompliance := downgrade confidences.suspensionCompliance
            primaryPillionComfort := downgrade confidences.primaryPillionComfort }
  let confidences :=
    if bike.handlebarType.isSome then confidences
    else { confidences with
            riderComfort := downgrade confidences.riderComfort
            funEngagement := downgrade confidences.funEngagement }
  confidences

-- ============================================
-- Scoring engine (src/engine/scoring.ts)
-- ============================================

/-- Sum of the ten weights (Object.values in key order). -/
def sumWeights (w : FactorWeights) : ℚ :=
  w.dailyTrafficEase + w.brakingSafetyConfidence + w.primaryPillionComfort +
  w.highwayStability + w.riderComfort + w.suspensionCompliance +
  w.funEngagement + w.heatManagement + w.ownershipPracticality +
  w.longTermSuitability

/-- Calculate the weighted final score (scoring.ts calculateFinalScore):
Σ(score × weight) / Σ weight when the weight total is positive (else 0),
scaled from 1-10 to 0-100 and rounded. -/
def calculateFinalScore (factorScores : FactorScores) (weights : FactorWeights) : ℤ :=
  let weightedSum :=
    factorScores.dailyTrafficEase * weights.dailyTrafficEase +
    factorScores.brakingSafetyConfidence * weights.brakingSafetyConfidence +
    factorScores.primaryPillionComfort * weights.primaryPillionComfort +
    factorScores.highwayStability * weights.highwayStability +
    factorScores.riderComfort * weights.riderComfort +
    factorScores.suspensionCompliance * weights.suspensionCompliance +
    factorScores.funEngagement * weights.funEngagement +
    factorScores.heatManagement * weights.heatManagement +
    factorScores.ownershipPracticality * weights.ownershipPracticality +
    factorScores.longTermSuitability * weights.longTermSuitability
  let totalWeight := sumWeights weights
  let normalizedScore := if 0 < totalWeight then weightedSum / totalWeight else 0
  jsRound (normalizedScore * 10)

/-- Normalize weights to sum to 1.0 (scoring.ts normalizeWeights); a vector
with total 0 is replaced by a copy of DEFAULT_WEIGHTS. -/
def normalizeWeights (weights : FactorWeights) : FactorWeights :=
  let total := sumWeights weights
  if total = 0 then DEFAULT_WEIGHTS
  else
    { dailyTrafficEase := weights.dailyTrafficEase / total
      brakingSafetyConfidence := weights.brakingSafetyConfidence / total
      primaryPillionComfort := weights.primaryPillionComfort / total
      highwayStability := weights.highwayStability / total
      riderComfort := weights.riderComfort / total
      suspensionCompliance := weights.suspensionCompliance / total
      funEngagement := weights.funEngagement / total
      heatManagement := weights.heatManagement / total
      ownershipPracticality := weights.ownershipPracticality / total
      longTermSuitability := weights.longTermSuitability / total }

/-- Score a single motorcycle (scoring.ts scoreMotorcycle); rank is set to 0
and assigned later during ranking. -/
def scoreMotorcycle (motorcycle : Motorcycle) (weights : FactorWeights)
    (pillionMode : PillionMode) : ScoredMotorcycle :=
  let normalizedWeights := normalizeWeights weights
  let factorScores := normalizeMotorcycle motorcycle pillionMode
  let finalScore := calculateFinalScore factorScores normalizedWeights
  let confidences := getFactorConfidences motorcycle
  { motorcycle := motorcycle
    factorScores := factorScores
    finalScore := finalScore
    rank := 0
    confidences := confidences }

/-- The rank-assignment loop of scoreAndRankMotorcycles: walk the sorted list
carrying the 0-based index, the previous final score, and the current rank;
the rank is reset to index+1 exactly when the score strictly drops. -/
def assignRanksGo : ℕ → ℤ → ℕ → List ScoredMotorcycle → List ScoredMotorcycle
  | _, _, _, [] => []
  | i, prev, currentRank, x :: xs =>
    let r := if 0 < i ∧ x.finalScore < prev then i + 1 else currentRank
    { x with rank := r } :: assignRanksGo (i + 1) x.finalScore r xs

/-- Score and rank multiple motorcycles (scoring.ts scoreAndRankMotorcycles):
score each bike, sort descending by final score (JavaScript sort with
comparator (a, b) =&gt; b.finalScore - a.finalScore is stable), then assign
competition ranks. -/
def scoreAndRankMotorcycles (motorcycles : List Motorcycle) (weights : FactorWeights)
    (pillionMode : PillionMode) : List ScoredMotorcycle :=
  let scoredBikes := motorcycles.map (fun bike => scoreMotorcycle bike weights pillionMode)
  let sortedBikes := scoredBikes.insertionSort (fun a b => b.finalScore ≤ a.finalScore)
  assignRanksGo 0 0 1 sortedBikes

inductive Winner where
  | bike1
  | bike2
  | tie
deriving DecidableEq

/-- One row of the comparison table produced by compareScores. -/
structure Comparison where
  factor : FactorKey
  label : String
  bike1Score : ℚ
  bike2Score : ℚ
  difference : ℚ
  winner : Winner
deriving DecidableEq

/-- The comparison entry compareScores builds for one factor. -/
def compareEntry (factor : FactorKey) (score1 score2 : ℚ) : Comparison :=
  let diff := score1 - score2
  { factor := factor
    label := factorLabel factor
    bike1Score := score1
    bike2Score := score2
    difference := |diff|
    winner :=
      if diff > 0.25 then Winner.bike1
      else if diff < -0.25 then Winner.bike2
      else Winner.tie }

/-- Compare two scored motorcycles factor by factor (scoring.ts
compareScores), sorted by descending absolute difference (stable sort). -/
def compareScores (bike1 bike2 : ScoredMotorcycle) : List Comparison :=
  let comparisons := factorKeys.map (fun factor =>
    compareEntry factor (getScore bike1.factorScores factor) (getScore bike2.factorScores factor))
  comparisons.insertionSort (fun a b => b.difference ≤ a.difference)

-- ============================================
-- Validator (src/engine/validator.ts)
-- ============================================

/-- A validation warning or error: stable code, message, optional field. -/
structure ValidationIssue where
  code : String
  message : String
  field : Option String
deriving DecidableEq

/-- ValidationResult. -/
structure ValidationResult where
  isValid : Bool
  warnings : List ValidationIssue
  errors : List ValidationIssue
deriving DecidableEq

/-- Validate motorcycle data completeness and sanity
(validator.ts validateMotorcycle).  Issues are listed in program order. -/
def validateMotorcycle (bike : PartialMotorcycle) : ValidationResult :=
  let errors : List ValidationIssue :=
    (if strPresent bike.brand then []
     else [⟨"MISSING_BRAND", "Brand is required", some "brand"⟩]) ++
    (if strPresent bike.model then []
     else [⟨"MISSING_MODEL", "Model is required", some "model"⟩]) ++
    (if numPos bike.engineCC then []
     else [⟨"INVALID_ENGINE", "Valid engine CC is required", some "engineCC"⟩]) ++
    (if numPos bike.power then []
     else [⟨"INVALID_POWER", "Valid power (bhp) is required", some "power"⟩]) ++
    (if numPos bike.kerbWeight then []
     else [⟨"INVALID_WEIGHT", "Valid kerb weight is required", some "kerbWeight"⟩]) ++
    (if bike.frontBrake.isSome then []
     else [⟨"MISSING_FRONT_BRAKE", "Front brake type is required", some "frontBrake"⟩]) ++
    (if bike.rearBrake.isSome then []
     else [⟨"MISSING_REAR_BRAKE", "Rear brake type is required", some "rearBrake"⟩])
  let warnings : List ValidationIssue :=
    (if numPos bike.engineCC ∧ bike.engineCC.getD 0 > 2000 then
       [⟨"LARGE_ENGINE", "Engine CC seems unusually large", some "engineCC"⟩]
     else []) ++
    (if numPos bike.power ∧ bike.power.getD 0 > 200 then
       [⟨"HIGH_POWER", "Power output seems unusually high", some "power"⟩]
     else []) ++
    (if numPos bike.torque then []
     else [⟨"MISSING_TORQUE", "Torque data is missing", some "torque"⟩]) ++
    (if numPos bike.kerbWeight ∧
        (bike.kerbWeight.getD 0 < 80 ∨ bike.kerbWeight.getD 0 > 400) then
       [⟨"UNUSUAL_WEIGHT", "Kerb weight seems unusual", some "kerbWeight"⟩]
     else []) ++
    (if numPos bike.seatHeight then
       (if bike.seatHeight.getD 0 < 600 ∨ bike.seatHeight.getD 0 > 1000 then
          [⟨"UNUSUAL_SEAT_HEIGHT", "Seat height seems unusual", some "seatHeight"⟩]
        else [])
     else [⟨"MISSING_SEAT_HEIGHT", "Seat height is missing", some "seatHeight"⟩]) ++
    (if numPos bike.wheelbase then []
     else [⟨"MISSING_WHEELBASE", "Wheelbase is missing", some "wheelbase"⟩]) ++
    (if numPos bike.groundClearance then []
     else [⟨"MISSING_GROUND_CLEARANCE", "Ground clearance is missing", some "groundClearance"⟩]) ++
    (if bike.absType.isSome then []
     else [⟨"MISSING_ABS", "ABS type is not specified", some "absType"⟩]) ++
    (if numPos bike.frontTyreWidth then []
     else [⟨"MISSING_FRONT_TYRE", "Front tyre width is missing", some "frontTyreWidth"⟩]) ++
    (if numPos bike.rearTyreWidth then []
     else [⟨"MISSING_REAR_TYRE", "Rear tyre width is missing", some "rearTyreWidth"⟩]) ++
    (if strPresent bike.frontSuspension then []
     else [⟨"MISSING_FRONT_SUSPENSION", "Front suspension type is missing", some "frontSuspension"⟩]) ++
    (if bike.rearSuspension.isSome then []
     else [⟨"MISSING_REAR_SUSPENSION", "Rear suspension type is missing", some "rearSuspension"⟩])
  { isValid := errors.isEmpty
    warnings := warnings
    errors := errors }

/-- Validate factor scores are within bounds (validator.ts
validateFactorScores). -/
def validateFactorScores (scores : FactorScores) : ValidationResult :=
  let errors : List ValidationIssue := factorKeys.filterMap (fun key =>
    if getScore scores key < 1 ∨ getScore scores key > 10 then
      some ⟨"SCORE_OUT_OF_BOUNDS",
            "Score for " ++ factorKeyName key ++ " must be between 1 and 10, got " ++
              toString (getScore scores key),
            some (factorKeyName key)⟩
    else none)
  { isValid := errors.isEmpty
    warnings := []
    errors := errors }

/-- Object.values of a confidence record, in key order. -/
def confidenceValues (c : FactorConfidences) : List Confidence :=
  [c.dailyTrafficEase, c.brakingSafetyConfidence, c.primaryPillionComfort,
   c.highwayStability, c.riderComfort, c.suspensionCompliance,
   c.funEngagement, c.heatManagement, c.ownershipPracticality,
   c.longTermSuitability]

/-- Validate a scored motorcycle result (validator.ts
validateScoredMotorcycle). -/
def validateScoredMotorcycle (scored : ScoredMotorcycle) : ValidationResult :=
  let finalErrors : List ValidationIssue :=
    if scored.finalScore < 0 ∨ scored.finalScore > 100 then
      [⟨"FINAL_SCORE_OUT_OF_BOUNDS",
        "Final score must be between 0 and 100, got " ++ toString scored.finalScore,
        none⟩]
    else []
  let factorValidation := validateFactorScores scored.factorScores
  let lowConfidenceCount :=
    ((confidenceValues scored.confidences).filter (fun c => c = Confidence.low)).length
  let warnings : List ValidationIssue :=
    factorValidation.warnings ++
    (if 3 ≤ lowConfidenceCount then
       [⟨"LOW_CONFIDENCE", toString lowConfidenceCount ++ " factors have low confidence", none⟩]
     else [])
  let errors := finalErrors ++ factorValidation.errors
  { isValid := errors.isEmpty
    warnings := warnings
    errors := errors }

/-- Maximum of a list of integers (Math.max over a nonempty spread). -/
def listMax : List ℤ → ℤ
  | [] => 0
  | x :: xs => xs.foldl max x

/-- Minimum of a list of integers (Math.min over a nonempty spread). -/
def listMin : List ℤ → ℤ
  | [] => 0
  | x :: xs => xs.foldl min x

/-- Validate a comparison result (validator.ts validateComparison). -/
def validateComparison (scoredBikes : List ScoredMotorcycle) : ValidationResult :=
  if scoredBikes.isEmpty then
    { isValid := false
      warnings := []
      errors := [⟨"NO_BIKES", "At least one motorcycle is required for comparison", none⟩] }
  else
    let bikeErrors : List ValidationIssue := scoredBikes.flatMap (fun bike =>
      (validateScoredMotorcycle bike).errors.map (fun e =>
        { e with message := bike.motorcycle.brand ++ " " ++ bike.motorcycle.model ++ ": " ++ e.message }))
    let bikeWarnings : List ValidationIssue := scoredBikes.flatMap (fun bike =>
      (validateScoredMotorcycle bike).warnings.map (fun w =>
        { w with message := bike.motorcycle.brand ++ " " ++ bike.motorcycle.model ++ ": " ++ w.message }))
    let rangeWarnings : List ValidationIssue :=
      if 2 ≤ scoredBikes.length then
        let scores := scoredBikes.map (fun b => b.finalScore)
        let range := listMax scores - listMin scores
        if range < 5 then
          [⟨"NARROW_SCORE_RANGE",
            "All bikes scored within " ++ toString range ++
              " points - consider adjusting weights for differentiation",
            none⟩]
        else []
      else []
    let rankErrors : List ValidationIssue :=
      if (scoredBikes.map (fun b => b.rank)).contains 1 then []
      else [⟨"INVALID_RANKING", "No bike has rank 1", none⟩]
    let errors := bikeErrors ++ rankErrors
    let warnings := bikeWarnings ++ rangeWarnings
    { isValid := errors.isEmpty
      warnings := warnings
      errors := errors }

/-- Fill missing motorcycle data with sensible defaults (validator.ts
fillMissingData).  JavaScript `||` keeps any truthy present value, including
a negative number. -/
def fillMissingData (bike : PartialMotorcycle) : Motorcycle where
  brand := strOr bike.brand "Unknown"
  model := strOr bike.model "Unknown"
  variant := bike.variant
  year := bike.year
  engineCC := numOr bike.engineCC 150
  power := numOr bike.power 10
  torque := numOr bike.torque 10
  kerbWeight := numOr bike.kerbWeight 140
  seatHeight := numOr bike.seatHeight 780
  wheelbase := numOr bike.wheelbase 1350
  groundClearance := numOr bike.groundClearance 160
  fuelCapacity := numOr bike.fuelCapacity 12
  frontBrake := bike.frontBrake.getD BrakeType.disc
  rearBrake := bike.rearBrake.getD BrakeType.drum
  absType := bike.absType.getD AbsType.none
  frontTyreWidth := numOr bike.frontTyreWidth 100
  rearTyreWidth := numOr bike.rearTyreWidth 130
  frontSuspension := strOr bike.frontSuspension "telescopic"
  rearSuspension := bike.rearSuspension.getD RearSuspensionType.twin
  rearSuspensionTravel := bike.rearSuspensionTravel
  handlebarType := bike.handlebarType
  exShowroomPrice := bike.exShowroomPrice
  reviewSummary := bike.reviewSummary
  heatManagementRating := bike.heatManagementRating
  confidence := bike.confidence.getD Confidence.low
  searchQuery := strOr bike.searchQuery ""

-- ============================================
-- Basic bounds on the rounding and clamping helpers
-- ============================================

theorem le_clamp_one_ten (v : ℚ) : 1 ≤ clamp v 1 10 :=
  le_min (by norm_num) (le_max_left 1 v)

theorem clamp_one_ten_le (v : ℚ) : clamp v 1 10 ≤ 10 := min_le_left _ _

theorem le_jsRound {k : ℤ} {q : ℚ} (h : (k : ℚ) ≤ q) : k ≤ jsRound q := by
  unfold jsRound
  rw [ratFloor_eq]
  exact Int.le_floor.mpr (by linarith)

theorem jsRound_le {k : ℤ} {q : ℚ} (h : q ≤ (k : ℚ)) : jsRound q ≤ k := by
  unfold jsRound
  rw [ratFloor_eq]
  exact Int.floor_le_iff.mpr (by linarith)

theorem le_roundHalf {k : ℤ} {q : ℚ} (h : (k : ℚ) ≤ q) : (k : ℚ) ≤ roundHalf q := by
  unfold roundHalf
  rw [le_div_iff₀ (by norm_num : (0 : ℚ) < 2)]
  have h2 : 2 * k ≤ jsRound (q * 2) := le_jsRound (by push_cast; linarith)
  have h2q : ((2 * k : ℤ) : ℚ) ≤ (jsRound (q * 2) : ℚ) := by exact_mod_cast h2
  push_cast at h2q
  linarith

theorem roundHalf_le {k : ℤ} {q : ℚ} (h : q ≤ (k : ℚ)) : roundHalf q ≤ (k : ℚ) := by
  unfold roundHalf
  rw [div_le_iff₀ (by norm_num : (0 : ℚ) < 2)]
  have h2 : jsRound (q * 2) ≤ 2 * k := jsRound_le (by push_cast; linarith)
  have h2q : (jsRound (q * 2) : ℚ) ≤ ((2 * k : ℤ) : ℚ) := by exact_mod_cast h2
  push_cast at h2q
  linarith

-- ============================================
-- Claim C1: factor scores in [1,10], final score in [0,100]
-- ============================================

theorem scoreDailyTrafficEase_bounds (b : Motorcycle) :
    1 ≤ scoreDailyTrafficEase b ∧ scoreDailyTrafficEase b ≤ 10 :=
  ⟨le_clamp_one_ten _, clamp_one_ten_le _⟩

theorem scoreBrakingSafetyConfidence_bounds (b : Motorcycle) :
    1 ≤ scoreBrakingSafetyConfidence b ∧ scoreBrakingSafetyConfidence b ≤ 10 :=
  ⟨le_clamp_one_ten _, clamp_one_ten_le _⟩

theorem scorePrimaryPillionComfort_bounds (b : Motorcycle) (m : PillionMode) :
    1 ≤ scorePrimaryPillionComfort b m ∧ scorePrimaryPillionComfort b m ≤ 10 :=
  ⟨le_clamp_one_ten _, clamp_one_ten_le _⟩

theorem scoreHighwayStability_bounds (b : Motorcycle) :
    1 ≤ scoreHighwayStability b ∧ scoreHighwayStability b ≤ 10 :=
  ⟨le_clamp_one_ten _, clamp_one_ten_le _⟩

theorem scoreRiderComfort_bounds (b : Motorcycle) :
    1 ≤ scoreRiderComfort b ∧ scoreRiderComfort b ≤ 10 :=
  ⟨le_clamp_one_ten _, clamp_one_ten_le _⟩

theorem scoreSuspensionCompliance_bounds (b : Motorcycle) :
    1 ≤ scoreSuspensionCompliance b ∧ scoreSuspensionCompliance b ≤ 10 :=
  ⟨le_clamp_one_ten _, clamp_one_ten_le _⟩

theorem scoreFunEngagement_bounds (b : Motorcycle) :
    1 ≤ scoreFunEngagement b ∧ scoreFunEngagement b ≤ 10 :=
  ⟨le_clamp_one_ten _, clamp_one_ten_le _⟩

theorem scoreHeatManagement_bounds (b : Motorcycle) :
    1 ≤ scoreHeatManagement b ∧ scoreHeatManagement b ≤ 10 := by
  cases hr : b.heatManagementRating with
  | none =>
    simp only [scoreHeatManagement, hr]
    exact ⟨le_clamp_one_ten _, clamp_one_ten_le _⟩
  | some r =>
    simp only [scoreHeatManagement, hr]
    by_cases h : r ≠ 0 ∧ 1 ≤ r ∧ r ≤ 10
    · rw [if_pos h]
      constructor
      · have h1 := le_roundHalf (k := 1) (q := r) (by push_cast; exact h.2.1)
        push_cast at h1
        exact h1
      · have h1 := roundHalf_le (k := 10) (q := r) (by push_cast; exact h.2.2)
        push_cast at h1
        exact h1
    · rw [if_neg h]
      exact ⟨le_clamp_one_ten _, clamp_one_ten_le _⟩

theorem scoreOwnershipPracticality_bounds (b : Motorcycle) :
    1 ≤ scoreOwnershipPracticality b ∧ scoreOwnershipPracticality b ≤ 10 :=
  ⟨le_clamp_one_ten _, clamp_one_ten_le _⟩

theorem scoreLongTermSuitability_bounds (b : Motorcycle) :
    1 ≤ scoreLongTermSuitability b ∧ scoreLongTermSuitability b ≤ 10 :=
  ⟨le_clamp_one_ten _, clamp_one_ten_le _⟩

/-- Every factor score produced by the normalizer lies in [1,10]. -/
theorem normalizeMotorcycle_bounds (b : Motorcycle) (mode : PillionMode) (k : FactorKey) :
    1 ≤ getScore (normalizeMotorcycle b mode) k ∧ getScore (normalizeMotorcycle b mode) k ≤ 10 := by
  cases k with
  | dailyTrafficEase => exact scoreDailyTrafficEase_bounds b
  | brakingSafetyConfidence => exact scoreBrakingSafetyConfidence_bounds b
  | primaryPillionComfort => exact scorePrimaryPillionComfort_bounds b mode
  | highwayStability => exact scoreHighwayStability_bounds b
  | riderComfort => exact scoreRiderComfort_bounds b
  | suspensionCompliance => exact scoreSuspensionCompliance_bounds b
  | funEngagement => exact scoreFunEngagement_bounds b
  | heatManagement => exact scoreHeatManagement_bounds b
  | ownershipPracticality => exact scoreOwnershipPracticality_bounds b
  | longTermSuitability => exact scoreLongTermSuitability_bounds b

/-- The weight vector has non-negative entries. -/
def nonnegWeights (w : FactorWeights) : Prop := ∀ k, 0 ≤ getWeight w k

instance (w : FactorWeights) : Decidable (nonnegWeights w) := by
  unfold nonnegWeights; infer_instance

theorem calculateFinalScore_eq (s : FactorScores) (w : FactorWeights) :
    calculateFinalScore s w =
      jsRound ((if 0 < sumWeights w then
        (s.dailyTrafficEase * w.dailyTrafficEase +
         s.brakingSafetyConfidence * w.brakingSafetyConfidence +
         s.primaryPillionComfort * w.primaryPillionComfort +
         s.highwayStability * w.highwayStability +
         s.riderComfort * w.riderComfort +
         s.suspensionCompliance * w.suspensionCompliance +
         s.funEngagement * w.funEngagement +
         s.heatManagement * w.heatManagement +
         s.ownershipPracticality * w.ownershipPracticality +
         s.longTermSuitability * w.longTermSuitability) / sumWeights w
      else 0) * 10) := rfl

/-- The weighted final score lies in [0,100] whenever every factor score lies
in [1,10] and every weight is non-negative. -/
theorem calculateFinalScore_bounds (s : FactorScores) (w : FactorWeights)
    (hs : ∀ k, 1 ≤ getScore s k ∧ getScore s k ≤ 10)
    (hw : nonnegWeights w) :
    0 ≤ calculateFinalScore s w ∧ calculateFinalScore s w ≤ 100 := by
  rw [calculateFinalScore_eq]
  have h1 : 1 ≤ s.dailyTrafficEase ∧ s.dailyTrafficEase ≤ 10 := hs FactorKey.dailyTrafficEase
  have h2 : 1 ≤ s.brakingSafetyConfidence ∧ s.brakingSafetyConfidence ≤ 10 := hs FactorKey.brakingSafetyConfidence
  have h3 : 1 ≤ s.primaryPillionComfort ∧ s.primaryPillionComfort ≤ 10 := hs FactorKey.primaryPillionComfort
  have h4 : 1 ≤ s.highwayStability ∧ s.highwayStability ≤ 10 := hs FactorKey.highwayStability
  have h5 : 1 ≤ s.riderComfort ∧ s.riderComfort ≤ 10 := hs FactorKey.riderComfort
  have h6 : 1 ≤ s.suspensionCompliance ∧ s.suspensionCompliance ≤ 10 := hs FactorKey.suspensionCompliance
  have h7 : 1 ≤ s.funEngagement ∧ s.funEngagement ≤ 10 := hs FactorKey.funEngagement
  have h8 : 1 ≤ s.heatManagement ∧ s.heatManagement ≤ 10 := hs FactorKey.heatManagement
  have h9 : 1 ≤ s.ownershipPracticality ∧ s.ownershipPracticality ≤ 10 := hs FactorKey.ownershipPracticality
  have h10 : 1 ≤ s.longTermSuitability ∧ s.longTermSuitability ≤ 10 := hs FactorKey.longTermSuitability
  have w1 : 0 ≤ w.dailyTrafficEase := hw FactorKey.dailyTrafficEase
  have w2 : 0 ≤ w.brakingSafetyConfidence := hw FactorKey.brakingSafetyConfidence
  have w3 : 0 ≤ w.primaryPillionComfort := hw FactorKey.primaryPillionComfort
  have w4 : 0 ≤ w.highwayStability := hw FactorKey.highwayStability
  have w5 : 0 ≤ w.riderComfort := hw FactorKey.riderComfort
  have w6 : 0 ≤ w.suspensionCompliance := hw FactorKey.suspensionCompliance
  have w7 : 0 ≤ w.funEngagement := hw FactorKey.funEngagement
  have w8 : 0 ≤ w.heatManagement := hw FactorKey.heatManagement
  have w9 : 0 ≤ w.ownershipPracticality := hw FactorKey.ownershipPracticality
  have w10 : 0 ≤ w.longTermSuitability := hw FactorKey.longTermSuitability
  by_cases ht : 0 < sumWeights w
  · rw [if_pos ht]
    have u1 := mul_le_mul_of_nonneg_right h1.2 w1
    have u2 := mul_le_mul_of_nonneg_right h2.2 w2
    have u3 := mul_le_mul_of_nonneg_right h3.2 w3
    have u4 := mul_le_mul_of_nonneg_right h4.2 w4
    have u5 := mul_le_mul_of_nonneg_right h5.2 w5
    have u6 := mul_le_mul_of_nonneg_right h6.2 w6
    have u7 := mul_le_mul_of_nonneg_right h7.2 w7
    have u8 := mul_le_mul_of_nonneg_right h8.2 w8
    have u9 := mul_le_mul_of_nonneg_right h9.2 w9
    have u10 := mul_le_mul_of_nonneg_right h10.2 w10
    have v1 := mul_le_mul_of_nonneg_right h1.1 w1
    have v2 := mul_le_mul_of_nonneg_right h2.1 w2
    have v3 := mul_le_mul_of_nonneg_right h3.1 w3
    have v4 := mul_le_mul_of_nonneg_right h4.1 w4
    have v5 := mul_le_mul_of_nonneg_right h5.1 w5
    have v6 := mul_le_mul_of_nonneg_right h6.1 w6
    have v7 := mul_le_mul_of_nonneg_right h7.1 w7
    have v8 := mul_le_mul_of_nonneg_right h8.1 w8
    have v9 := mul_le_mul_of_nonneg_right h9.1 w9
    have v10 := mul_le_mul_of_nonneg_right h10.1 w10
    have hsum : sumWeights w =
        w.dailyTrafficEase + w.brakingSafetyConfidence + w.primaryPillionComfort +
        w.highwayStability + w.riderComfort + w.suspensionCompliance +
        w.funEngagement + w.heatManagement + w.ownershipPracticality +
        w.longTermSuitability := rfl
    have hlow : (1 : ℚ) ≤
        (s.dailyTrafficEase * w.dailyTrafficEase +
         s.brakingSafetyConfidence * w.brakingSafetyConfidence +
         s.primaryPillionComfort * w.primaryPillionComfort +
         s.highwayStability * w.highwayStability +
         s.riderComfort * w.riderComfort +
         s.suspensionCompliance * w.suspensionCompliance +
         s.funEngagement * w.funEngagement +
         s.heatManagement * w.heatManagement +
         s.ownershipPracticality * w.ownershipPracticality +
         s.longTermSuitability * w.longTermSuitability) / sumWeights w := by
      rw [le_div_iff₀ ht, hsum]
      linarith
    have hhigh :
        (s.dailyTrafficEase * w.dailyTrafficEase +
         s.brakingSafetyConfidence * w.brakingSafetyConfidence +
         s.primaryPillionComfort * w.primaryPillionComfort +
         s.highwayStability * w.highwayStability +
         s.riderComfort * w.riderComfort +
         s.suspensionCompliance * w.suspensionCompliance +
         s.funEngagement * w.funEngagement +
         s.heatManagement * w.heatManagement +
         s.ownershipPracticality * w.ownershipPracticality +
         s.longTermSuitability * w.longTermSuitability) / sumWeights w ≤ 10 := by
      rw [div_le_iff₀ ht, hsum]
      linarith
    constructor
    · exact le_jsRound (by push_cast; linarith)
    · exact jsRound_le (by push_cast; linarith)
  · rw [if_neg ht]
    constructor
    · exact le_jsRound (by norm_num)
    · exact jsRound_le (by norm_num)

/-- C1.  For every vehicle record accepted by the validator (empty error
list) and every non-negative weight vector, each of the ten factor scores
produced by normalizeMotorcycle lies in [1,10], and the final score returned
by calculateFinalScore on those factor scores lies in [0,100]. -/
theorem claim1_score_bounds (b : Motorcycle) (mode : PillionMode) (w : FactorWeights)
    (hval : (validateMotorcycle (toPartialMotorcycle b)).errors = [])
    (hw : nonnegWeights w) :
    (∀ k, 1 ≤ getScore (normalizeMotorcycle b mode) k ∧
          getScore (normalizeMotorcycle b mode) k ≤ 10) ∧
    0 ≤ calculateFinalScore (normalizeMotorcycle b mode) w ∧
    calculateFinalScore (normalizeMotorcycle b mode) w ≤ 100 :=
  ⟨normalizeMotorcycle_bounds b mode,
   calculateFinalScore_bounds _ w (normalizeMotorcycle_bounds b mode) hw⟩

-- ============================================
-- Claims C6 and C7: weight normalization
-- ============================================

theorem normalizeWeights_eq (w : FactorWeights) :
    normalizeWeights w =
      if sumWeights w = 0 then DEFAULT_WEIGHTS
      else
        { dailyTrafficEase := w.dailyTrafficEase / sumWeights w
          brakingSafetyConfidence := w.brakingSafetyConfidence / sumWeights w
          primaryPillionComfort := w.primaryPillionComfort / sumWeights w
          highwayStability := w.highwayStability / sumWeights w
          riderComfort := w.riderComfort / sumWeights w
          suspensionCompliance := w.suspensionCompliance / sumWeights w
          funEngagement := w.funEngagement / sumWeights w
          heatManagement := w.heatManagement / sumWeights w
          ownershipPracticality := w.ownershipPracticality / sumWeights w
          longTermSuitability := w.longTermSuitability / sumWeights w } := rfl

theorem normalizeWeights_of_sum_zero (w : FactorWeights) (h : sumWeights w = 0) :
    normalizeWeights w = DEFAULT_WEIGHTS := by
  rw [normalizeWeights_eq, if_pos h]

theorem sumWeights_default : sumWeights DEFAULT_WEIGHTS = 1 := by
  norm_num [sumWeights, DEFAULT_WEIGHTS]

theorem sumWeights_normalizeWeights (w : FactorWeights) (h : sumWeights w ≠ 0) :
    sumWeights (normalizeWeights w) = 1 := by
  rw [normalizeWeights_eq, if_neg h]
  show w.dailyTrafficEase / sumWeights w + w.brakingSafetyConfidence / sumWeights w +
      w.primaryPillionComfort / sumWeights w + w.highwayStability / sumWeights w +
      w.riderComfort / sumWeights w + w.suspensionCompliance / sumWeights w +
      w.funEngagement / sumWeights w + w.heatManagement / sumWeights w +
      w.ownershipPracticality / sumWeights w + w.longTermSuitability / sumWeights w = 1
  rw [div_add_div_same, div_add_div_same, div_add_div_same, div_add_div_same,
    div_add_div_same, div_add_div_same, div_add_div_same, div_add_div_same,
    div_add_div_same]
  exact div_self h

theorem normalizeWeights_idem (w : FactorWeights) :
    normalizeWeights (normalizeWeights w) = normalizeWeights w := by
  by_cases h : sumWeights w = 0
  · rw [normalizeWeights_of_sum_zero w h]
    with_unfolding_all decide
  · have h1 : sumWeights (normalizeWeights w) = 1 := sumWeights_normalizeWeights w h
    rw [normalizeWeights_eq (normalizeWeights w), h1]
    norm_num

/-- C6.  normalizeWeights is idempotent on non-negative weight vectors, and
its output sums to 1 within 1e-9 (in the exact-rational model the sum is
exactly 1, both in the generic branch and for the default vector). -/
theorem claim6_normalizeWeights_idempotent (w : FactorWeights) (hw : nonnegWeights w) :
    normalizeWeights (normalizeWeights w) = normalizeWeights w ∧
    |sumWeights (normalizeWeights w) - 1| ≤ 1 / 1000000000 := by
  refine ⟨normalizeWeights_idem w, ?_⟩
  by_cases h : sumWeights w = 0
  · rw [normalizeWeights_of_sum_zero w h, sumWeights_default]
    norm_num
  · rw [sumWeights_normalizeWeights w h]
    norm_num

/-- Sample weight vector for the C6 witness. -/
def witnessWeights6 : FactorWeights where
  dailyTrafficEase := 2
  brakingSafetyConfidence := 3
  primaryPillionComfort := 0
  highwayStability := 1
  riderComfort := 0.5
  suspensionCompliance := 1.5
  funEngagement := 4
  heatManagement := 0
  ownershipPracticality := 2
  longTermSuitability := 6

theorem claim6_witness :
    nonnegWeights witnessWeights6 ∧
    (normalizeWeights (normalizeWeights witnessWeights6) = normalizeWeights witnessWeights6 ∧
     |sumWeights (normalizeWeights witnessWeights6) - 1| ≤ 1 / 1000000000) :=
  ⟨by with_unfolding_all decide,
   claim6_normalizeWeights_idempotent witnessWeights6 (by with_unfolding_all decide)⟩

/-- C7.  A weight vector summing to zero normalizes to the documented default
vector, and the default vector sums to 1. -/
theorem claim7_zero_sum_default (w : FactorWeights) (h : sumWeights w = 0) :
    normalizeWeights w = DEFAULT_WEIGHTS ∧ sumWeights DEFAULT_WEIGHTS = 1 :=
  ⟨normalizeWeights_of_sum_zero w h, sumWeights_default⟩

/-- The all-zero weight vector, for the C7 witness. -/
def zeroWeights : FactorWeights where
  dailyTrafficEase := 0
  brakingSafetyConfidence := 0
  primaryPillionComfort := 0
  highwayStability := 0
  riderComfort := 0
  suspensionCompliance := 0
  funEngagement := 0
  heatManagement := 0
  ownershipPracticality := 0
  longTermSuitability := 0

theorem claim7_witness :
    sumWeights zeroWeights = 0 ∧
    (normalizeWeights zeroWeights = DEFAULT_WEIGHTS ∧ sumWeights DEFAULT_WEIGHTS = 1) :=
  ⟨by with_unfolding_all decide,
   claim7_zero_sum_default zeroWeights (by with_unfolding_all decide)⟩

-- ============================================
-- Shared concrete records for witnesses and counterexamples
-- ============================================

/-- A fully specified, plausible record (valid under validateMotorcycle). -/
def demoBike : Motorcycle where
  brand := "Kawasaki"
  model := "Ninja 400"
  variant := none
  year := some 2023
  engineCC := 399
  power := 46
  torque := 37
  kerbWeight := 168
  seatHeight := 820
  wheelbase := 1370
  groundClearance := 140
  fuelCapacity := 14
  frontBrake := BrakeType.disc
  rearBrake := BrakeType.disc
  absType := AbsType.dualChannel
  frontTyreWidth := 110
  rearTyreWidth := 150
  frontSuspension := "telescopic"
  rearSuspension := RearSuspensionType.monoshock
  rearSuspensionTravel := some 150
  handlebarType := some HandlebarType.clipOn
  exShowroomPrice := some 500000
  reviewSummary := none
  heatManagementRating := none
  confidence := Confidence.high
  searchQuery := "ninja 400"

/-- A default ScoredMotorcycle used with List.getD. -/
def dummyScored : ScoredMotorcycle :=
  scoreMotorcycle demoBike DEFAULT_WEIGHTS PillionMode.primary

/-- Copy of demoBike carrying an externally supplied heat rating. -/
def heatedBike (name : String) (r : ℚ) : Motorcycle :=
  { demoBike with
    model := name
    heatManagementRating := some r }

/-- Weight vector putting all weight on heat management. -/
def wHeatOnly : FactorWeights := { zeroWeights with heatManagement := 1 }

/-- Weight vector splitting weight 0.6 / 0.4 between heat management and
braking safety. -/
def wMixed : FactorWeights :=
  { zeroWeights with
    heatManagement := 0.6
    brakingSafetyConfidence := 0.4 }

/-- Four bikes whose final scores under wHeatOnly are 90, 85, 85, 80. -/
def rankDemoBikes1 : List Motorcycle :=
  [heatedBike "d" 8, heatedBike "b" 8.5, heatedBike "a" 9, heatedBike "c" 8.5]

/-- Bike scoring 72 under wMixed (heat 7, braking 7.5). -/
def bikeSeventyTwo : Motorcycle :=
  { demoBike with
    model := "P"
    heatManagementRating := some 7
    absType := AbsType.singleChannel
    frontTyreWidth := 90
    rearTyreWidth := 120 }

/-- A second, distinct bike also scoring 72 under wMixed. -/
def bikeSeventyTwoB : Motorcycle := { bikeSeventyTwo with model := "Q" }

/-- Bike scoring 65 under wMixed (heat 6.5, braking 6.5). -/
def bikeSixtyFive : Motorcycle :=
  { demoBike with
    model := "R"
    heatManagementRating := some 6.5
    absType := AbsType.none
    frontTyreWidth := 90
    rearTyreWidth := 150 }

/-- Three bikes whose final scores under wMixed are 72, 72, 65. -/
def rankDemoBikes2 : List Motorcycle :=
  [bikeSixtyFive, bikeSeventyTwo, bikeSeventyTwoB]

theorem claim1_witness :
    (validateMotorcycle (toPartialMotorcycle demoBike)).errors = [] ∧
    nonnegWeights DEFAULT_WEIGHTS ∧
    ((∀ k, 1 ≤ getScore (normalizeMotorcycle demoBike PillionMode.primary) k ∧
           getScore (normalizeMotorcycle demoBike PillionMode.primary) k ≤ 10) ∧
     0 ≤ calculateFinalScore (normalizeMotorcycle demoBike PillionMode.primary) DEFAULT_WEIGHTS ∧
     calculateFinalScore (normalizeMotorcycle demoBike PillionMode.primary) DEFAULT_WEIGHTS ≤ 100) :=
  ⟨by with_unfolding_all decide, by with_unfolding_all decide,
   claim1_score_bounds demoBike PillionMode.primary DEFAULT_WEIGHTS
     (by with_unfolding_all decide) (by with_unfolding_all decide)⟩

-- ============================================
-- Claim C2: ranking order and competition ranks
-- ============================================

theorem assignRanksGo_cons (i : ℕ) (prev : ℤ) (c : ℕ) (x : ScoredMotorcycle)
    (xs : List ScoredMotorcycle) :
    assignRanksGo i prev c (x :: xs) =
      { x with rank := if 0 < i ∧ x.finalScore < prev then i + 1 else c } ::
        assignRanksGo (i + 1) x.finalScore
          (if 0 < i ∧ x.finalScore < prev then i + 1 else c) xs := rfl

theorem assignRanksGo_length : ∀ (xs : List ScoredMotorcycle) (i : ℕ) (prev : ℤ) (c : ℕ),
    (assignRanksGo i prev c xs).length = xs.length
  | [], _, _, _ => rfl
  | x :: xs, i, prev, c => by
    rw [assignRanksGo_cons]
    simp [assignRanksGo_length xs]

theorem assignRanksGo_finalScore :
    ∀ (xs : List ScoredMotorcycle) (i : ℕ) (prev : ℤ) (c : ℕ) (j : ℕ),
    ((assignRanksGo i prev c xs)[j]?).map (fun s => s.finalScore) =
      (xs[j]?).map (fun s => s.finalScore)
  | [], _, _, _, _ => rfl
  | x :: xs, i, prev, c, 0 => by
    rw [assignRanksGo_cons]
    simp
  | x :: xs, i, prev, c, j + 1 => by
    rw [assignRanksGo_cons]
    simp only [List.getElem?_cons_succ]
    exact assignRanksGo_finalScore xs (i + 1) x.finalScore _ j

theorem assignRanksGo_adjacent :
    ∀ (xs : List ScoredMotorcycle) (i : ℕ) (prev : ℤ) (c : ℕ) (j : ℕ)
      (a b : ScoredMotorcycle),
    (assignRanksGo i prev c xs)[j]? = some a →
    (assignRanksGo i prev c xs)[j + 1]? = some b →
    b.rank = if b.finalScore < a.finalScore then i + j + 2 else a.rank
  | [], _, _, _, _, _, _ => by
    intro h _
    simp [assignRanksGo] at h
  | [x], i, prev, c, j, a, b => by
    intro _ hb
    rw [assignRanksGo_cons] at hb
    rcases j with _ | j <;> simp [assignRanksGo] at hb
  | x :: y :: xs, i, prev, c, 0, a, b => by
    intro ha hb
    rw [assignRanksGo_cons] at ha hb
    simp only [List.getElem?_cons_zero, Option.some_inj] at ha
    rw [assignRanksGo_cons] at hb
    simp only [List.getElem?_cons_succ, List.getElem?_cons_zero, Option.some_inj] at hb
    subst ha
    subst hb
    have harith : i + 1 + 1 = i + 0 + 2 := by omega
    simp [Nat.succ_pos, harith]
  | x :: y :: xs, i, prev, c, j + 1, a, b => by
    intro ha hb
    rw [assignRanksGo_cons] at ha hb
    simp only [List.getElem?_cons_succ] at ha hb
    have hrec := assignRanksGo_adjacent (y :: xs) (i + 1) x.finalScore
      (if 0 < i ∧ x.finalScore < prev then i + 1 else c) j a b ha hb
    rw [hrec]
    by_cases hlt : b.finalScore < a.finalScore
    · rw [if_pos hlt, if_pos hlt]
      omega
    · rw [if_neg hlt, if_neg hlt]

theorem assignRanksGo_head_rank (xs : List ScoredMotorcycle) (prev : ℤ)
    (a : ScoredMotorcycle) (h : (assignRanksGo 0 prev 1 xs)[0]? = some a) :
    a.rank = 1 := by
  cases xs with
  | nil => simp [assignRanksGo] at h
  | cons x xs =>
    rw [assignRanksGo_cons] at h
    simp only [List.getElem?_cons_zero, Option.some_inj] at h
    subst h
    simp

theorem scoreAndRankMotorcycles_eq (ms : List Motorcycle) (w : FactorWeights)
    (mode : PillionMode) :
    scoreAndRankMotorcycles ms w mode =
      assignRanksGo 0 0 1
        ((ms.map (fun bike => scoreMotorcycle bike w mode)).insertionSort
          (fun a b => b.finalScore ≤ a.finalScore)) := rfl

theorem insertionSort_desc_adjacent (l : List ScoredMotorcycle) (j : ℕ)
    (a b : ScoredMotorcycle)
    (ha : (l.insertionSort (fun a b => b.finalScore ≤ a.finalScore))[j]? = some a)
    (hb : (l.insertionSort (fun a b => b.finalScore ≤ a.finalScore))[j + 1]? = some b) :
    b.finalScore ≤ a.finalScore := by
  haveI : IsTotal ScoredMotorcycle (fun a b => b.finalScore ≤ a.finalScore) :=
    ⟨fun a b => le_total b.finalScore a.finalScore⟩
  haveI : IsTrans ScoredMotorcycle (fun a b => b.finalScore ≤ a.finalScore) :=
    ⟨fun _ _ _ h1 h2 => le_trans h2 h1⟩
  have hs := List.sorted_insertionSort (fun a b : ScoredMotorcycle =>
    b.finalScore ≤ a.finalScore) l
  rw [List.getElem?_eq_some_iff] at ha hb
  obtain ⟨hja, ea⟩ := ha
  obtain ⟨hjb, eb⟩ := hb
  have hp := List.pairwise_iff_getElem.mp hs j (j + 1) hja hjb (by omega)
  rw [ea, eb] at hp
  exact hp

/-- C2.  scoreAndRankMotorcycles orders its output by final score descending
and assigns competition ranks: an entry tied with its predecessor keeps the
predecessor's rank; an entry with a strictly lower score gets its 1-based
position as rank.  In particular final scores [90, 85, 85, 80] come out
ranked [1, 2, 2, 4], and scores [72, 72, 65] come out ranked [1, 1, 3]. -/
theorem claim2_competition_ranking :
    (∀ (ms : List Motorcycle) (w : FactorWeights) (mode : PillionMode) (j : ℕ)
       (a b : ScoredMotorcycle),
       (scoreAndRankMotorcycles ms w mode)[j]? = some a →
       (scoreAndRankMotorcycles ms w mode)[j + 1]? = some b →
       b.finalScore ≤ a.finalScore ∧
       (b.finalScore = a.finalScore → b.rank = a.rank) ∧
       (b.finalScore < a.finalScore → b.rank = j + 2)) ∧
    (∀ (ms : List Motorcycle) (w : FactorWeights) (mode : PillionMode)
       (a : ScoredMotorcycle),
       (scoreAndRankMotorcycles ms w mode)[0]? = some a → a.rank = 1) ∧
    (scoreAndRankMotorcycles rankDemoBikes1 wHeatOnly PillionMode.primary).map
      (fun s => s.finalScore) = [90, 85, 85, 80] ∧
    (scoreAndRankMotorcycles rankDemoBikes1 wHeatOnly PillionMode.primary).map
      (fun s => s.rank) = [1, 2, 2, 4] ∧
    (scoreAndRankMotorcycles rankDemoBikes2 wMixed PillionMode.primary).map
      (fun s => s.finalScore) = [72, 72, 65] ∧
    (scoreAndRankMotorcycles rankDemoBikes2 wMixed PillionMode.primary).map
      (fun s => s.rank) = [1, 1, 3] := by
  refine ⟨?_, ?_, ?_, ?_, ?_, ?_⟩
  · intro ms w mode j a b ha hb
    rw [scoreAndRankMotorcycles_eq] at ha hb
    set L := (ms.map (fun bike => scoreMotorcycle bike w mode)).insertionSort
      (fun a b => b.finalScore ≤ a.finalScore) with hL
    have hfsj := assignRanksGo_finalScore L 0 0 1 j
    have hfsj1 := assignRanksGo_finalScore L 0 0 1 (j + 1)
    rw [ha] at hfsj
    rw [hb] at hfsj1
    simp only [Option.map_some'] at hfsj hfsj1
    obtain ⟨a2, ha2, hafs⟩ := Option.map_eq_some'.mp hfsj.symm
    obtain ⟨b2, hb2, hbfs⟩ := Option.map_eq_some'.mp hfsj1.symm
    have hsorted : b2.finalScore ≤ a2.finalScore :=
      insertionSort_desc_adjacent _ j a2 b2 ha2 hb2
    have hadj := assignRanksGo_adjacent L 0 0 1 j a b ha hb
    refine ⟨?_, ?_, ?_⟩
    · rw [hafs, hbfs] at hsorted
      exact hsorted
    · intro heq
      rw [hadj, if_neg (by rw [heq]; exact lt_irrefl _)]
    · intro hlt
      rw [hadj, if_pos hlt]
      omega
  · intro ms w mode a ha
    rw [scoreAndRankMotorcycles_eq] at ha
    exact assignRanksGo_head_rank _ _ _ ha
  · with_unfolding_all decide
  · with_unfolding_all decide
  · with_unfolding_all decide
  · with_unfolding_all decide

theorem getElem?_eq_some_getD {α : Type} (l : List α) (i : ℕ) (d : α)
    (h : i < l.length) : l[i]? = some (l.getD i d) := by
  rw [List.getElem?_eq_getElem h, List.getD_eq_getElem?_getD,
    List.getElem?_eq_getElem h]
  rfl

/-- The ranked output of the first C2 example, used by the witness. -/
def rankedDemo1 : List ScoredMotorcycle :=
  scoreAndRankMotorcycles rankDemoBikes1 wHeatOnly PillionMode.primary

theorem claim2_witness :
    (rankedDemo1.getD 3 dummyScored).finalScore ≤ (rankedDemo1.getD 2 dummyScored).finalScore ∧
    ((rankedDemo1.getD 3 dummyScored).finalScore = (rankedDemo1.getD 2 dummyScored).finalScore →
      (rankedDemo1.getD 3 dummyScored).rank = (rankedDemo1.getD 2 dummyScored).rank) ∧
    ((rankedDemo1.getD 3 dummyScored).finalScore < (rankedDemo1.getD 2 dummyScored).finalScore →
      (rankedDemo1.getD 3 dummyScored).rank = 2 + 2) :=
  claim2_competition_ranking.1 rankDemoBikes1 wHeatOnly PillionMode.primary 2
    (rankedDemo1.getD 2 dummyScored) (rankedDemo1.getD 3 dummyScored)
    (getElem?_eq_some_getD rankedDemo1 2 dummyScored (by with_unfolding_all decide))
    (getElem?_eq_some_getD rankedDemo1 3 dummyScored (by with_unfolding_all decide))

-- ============================================
-- Claim C10: a rank-1 entry always exists in ranker output
-- ============================================

theorem validateFactorScores_errors_eq (scores : FactorScores) :
    (validateFactorScores scores).errors =
      factorKeys.filterMap (fun key =>
        if getScore scores key < 1 ∨ getScore scores key > 10 then
          some ⟨"SCORE_OUT_OF_BOUNDS",
                "Score for " ++ factorKeyName key ++ " must be between 1 and 10, got " ++
                  toString (getScore scores key),
                some (factorKeyName key)⟩
        else none) := rfl

theorem validateScoredMotorcycle_errors_eq (scored : ScoredMotorcycle) :
    (validateScoredMotorcycle scored).errors =
      (if scored.finalScore < 0 ∨ scored.finalScore > 100 then
        [⟨"FINAL_SCORE_OUT_OF_BOUNDS",
          "Final score must be between 0 and 100, got " ++ toString scored.finalScore,
          none⟩]
      else []) ++ (validateFactorScores scored.factorScores).errors := rfl

/-- Every error validateScoredMotorcycle can emit carries one of the two
score-bound codes. -/
theorem validateScoredMotorcycle_error_codes (scored : ScoredMotorcycle)
    (e : ValidationIssue) (he : e ∈ (validateScoredMotorcycle scored).errors) :
    e.code = "FINAL_SCORE_OUT_OF_BOUNDS" ∨ e.code = "SCORE_OUT_OF_BOUNDS" := by
  rw [validateScoredMotorcycle_errors_eq] at he
  rcases List.mem_append.mp he with hl | hr
  · by_cases hc : scored.finalScore < 0 ∨ scored.finalScore > 100
    · rw [if_pos hc] at hl
      simp only [List.mem_singleton] at hl
      subst hl
      left
      rfl
    · rw [if_neg hc] at hl
      simp at hl
  · rw [validateFactorScores_errors_eq] at hr
    obtain ⟨key, _, hkey⟩ := List.mem_filterMap.mp hr
    by_cases hc : getScore scored.factorScores key < 1 ∨ getScore scored.factorScores key > 10
    · rw [if_pos hc, Option.some_inj] at hkey
      subst hkey
      right
      rfl
    · rw [if_neg hc] at hkey
      simp at hkey

theorem validateComparison_errors_of_ne_nil (l : List ScoredMotorcycle) (h : l ≠ []) :
    (validateComparison l).errors =
      (l.flatMap (fun bike => (validateScoredMotorcycle bike).errors.map (fun e =>
        { e with message := bike.motorcycle.brand ++ " " ++ bike.motorcycle.model ++ ": " ++ e.message }))) ++
      (if (l.map (fun b => b.rank)).contains 1 then []
       else [⟨"INVALID_RANKING", "No bike has rank 1", none⟩]) := by
  unfold validateComparison
  rw [if_neg (by simp only [List.isEmpty_iff]; exact h)]

/-- C10.  For every non-empty batch and every weight vector the ranker output
is non-empty, its first entry has rank 1, and validateComparison never emits
the INVALID_RANKING ("No bike has rank 1") error on ranker output. -/
theorem claim10_rank_one_unreachable (ms : List Motorcycle) (w : FactorWeights)
    (mode : PillionMode) (h : ms ≠ []) :
    scoreAndRankMotorcycles ms w mode ≠ [] ∧
    ((scoreAndRankMotorcycles ms w mode).getD 0 dummyScored).rank = 1 ∧
    ∀ e ∈ (validateComparison (scoreAndRankMotorcycles ms w mode)).errors,
      e.code ≠ "INVALID_RANKING" := by
  have hlen : (scoreAndRankMotorcycles ms w mode).length = ms.length := by
    rw [scoreAndRankMotorcycles_eq, assignRanksGo_length, List.length_insertionSort,
      List.length_map]
  have hne : scoreAndRankMotorcycles ms w mode ≠ [] := by
    intro hnil
    rw [hnil] at hlen
    exact h (List.length_eq_zero.mp hlen.symm)
  have hlt0 : 0 < (scoreAndRankMotorcycles ms w mode).length := List.length_pos.mpr hne
  have h0 : (scoreAndRankMotorcycles ms w mode)[0]? =
      some ((scoreAndRankMotorcycles ms w mode).getD 0 dummyScored) :=
    getElem?_eq_some_getD _ 0 dummyScored hlt0
  have hrank1 : ((scoreAndRankMotorcycles ms w mode).getD 0 dummyScored).rank = 1 := by
    apply assignRanksGo_head_rank
    rw [scoreAndRankMotorcycles_eq] at h0
    exact h0
  refine ⟨hne, hrank1, ?_⟩
  intro e he
  have hmem : (scoreAndRankMotorcycles ms w mode).getD 0 dummyScored ∈
      scoreAndRankMotorcycles ms w mode := List.getElem?_mem h0
  have hc : ((scoreAndRankMotorcycles ms w mode).map (fun b => b.rank)).contains 1 = true := by
    rw [List.contains_eq_any_beq, List.any_eq_true]
    refine ⟨1, List.mem_map.mpr ⟨_, hmem, hrank1⟩, ?_⟩
    decide
  rw [validateComparison_errors_of_ne_nil _ hne, if_pos hc, List.append_nil] at he
  obtain ⟨bike, _, hin⟩ := List.mem_flatMap.mp he
  obtain ⟨e2, he2, hmap⟩ := List.mem_map.mp hin
  have hcode : e.code = e2.code := by rw [← hmap]
  rcases validateScoredMotorcycle_error_codes bike e2 he2 with h1 | h1 <;>
    rw [hcode, h1] <;> decide

theorem claim10_witness :
    scoreAndRankMotorcycles [demoBike] DEFAULT_WEIGHTS PillionMode.primary ≠ [] ∧
    ((scoreAndRankMotorcycles [demoBike] DEFAULT_WEIGHTS PillionMode.primary).getD 0
      dummyScored).rank = 1 ∧
    ∀ e ∈ (validateComparison
        (scoreAndRankMotorcycles [demoBike] DEFAULT_WEIGHTS PillionMode.primary)).errors,
      e.code ≠ "INVALID_RANKING" :=
  claim10_rank_one_unreachable [demoBike] DEFAULT_WEIGHTS PillionMode.primary
    (List.cons_ne_nil _ _)

-- ============================================
-- Claim C8: comparator anti-symmetry
-- ============================================

/-- Mirror of a per-factor winner (bike1 and bike2 swapped, tie unchanged). -/
def swapWinner : Winner → Winner
  | Winner.bike1 => Winner.bike2
  | Winner.bike2 => Winner.bike1
  | Winner.tie => Winner.tie

theorem compareEntry_mirror (f : FactorKey) (s1 s2 : ℚ) :
    (compareEntry f s2 s1).difference = (compareEntry f s1 s2).difference ∧
    (compareEntry f s2 s1).winner = swapWinner (compareEntry f s1 s2).winner := by
  unfold compareEntry
  refine ⟨by simp [abs_sub_comm], ?_⟩
  simp only []
  split_ifs <;> first | rfl | (exfalso; linarith)

theorem compareScores_mem_iff (b1 b2 : ScoredMotorcycle) (e : Comparison) :
    e ∈ compareScores b1 b2 ↔
      e ∈ factorKeys.map (fun f =>
        compareEntry f (getScore b1.factorScores f) (getScore b2.factorScores f)) :=
  (List.perm_insertionSort _ _).mem_iff

theorem compareScores_length (b1 b2 : ScoredMotorcycle) :
    (compareScores b1 b2).length = 10 := by
  unfold compareScores
  rw [List.length_insertionSort, List.length_map]
  rfl

/-- C8.  Every entry of compareScores follows the 0.25-threshold winner rule,
and compareScores is anti-symmetric: the entry for the same factor in the
swapped comparison has the same absolute difference and the mirrored
winner. -/
theorem claim8_compare_antisymmetric (a b : ScoredMotorcycle) (e : Comparison)
    (he : e ∈ compareScores a b) :
    (e.winner = if e.bike1Score - e.bike2Score > 0.25 then Winner.bike1
      else if e.bike1Score - e.bike2Score < -0.25 then Winner.bike2 else Winner.tie) ∧
    ∃ e2 ∈ compareScores b a, e2.factor = e.factor ∧
      e2.difference = e.difference ∧ e2.winner = swapWinner e.winner := by
  rw [compareScores_mem_iff] at he
  obtain ⟨f, hf, hfe⟩ := List.mem_map.mp he
  subst hfe
  refine ⟨rfl, ?_⟩
  refine ⟨compareEntry f (getScore b.factorScores f) (getScore a.factorScores f),
    ?_, rfl, ?_, ?_⟩
  · rw [compareScores_mem_iff]
    exact List.mem_map.mpr ⟨f, hf, rfl⟩
  · exact (compareEntry_mirror f _ _).1
  · exact (compareEntry_mirror f _ _).2

/-- A second scored vehicle for the C8 witness. -/
def scoredDemoB : ScoredMotorcycle :=
  scoreMotorcycle bikeSixtyFive wMixed PillionMode.primary

/-- A default Comparison used with List.getD. -/
def dummyComparison : Comparison := compareEntry FactorKey.dailyTrafficEase 5 5

theorem claim8_witness :
    (((compareScores dummyScored scoredDemoB).getD 0 dummyComparison).winner =
      if ((compareScores dummyScored scoredDemoB).getD 0 dummyComparison).bike1Score -
          ((compareScores dummyScored scoredDemoB).getD 0 dummyComparison).bike2Score > 0.25
        then Winner.bike1
      else if ((compareScores dummyScored scoredDemoB).getD 0 dummyComparison).bike1Score -
          ((compareScores dummyScored scoredDemoB).getD 0 dummyComparison).bike2Score < -0.25
        then Winner.bike2 else Winner.tie) ∧
    ∃ e2 ∈ compareScores scoredDemoB dummyScored,
      e2.factor = ((compareScores dummyScored scoredDemoB).getD 0 dummyComparison).factor ∧
      e2.difference = ((compareScores dummyScored scoredDemoB).getD 0 dummyComparison).difference ∧
      e2.winner = swapWinner ((compareScores dummyScored scoredDemoB).getD 0 dummyComparison).winner :=
  claim8_compare_antisymmetric dummyScored scoredDemoB
    ((compareScores dummyScored scoredDemoB).getD 0 dummyComparison)
    (List.getElem?_mem (getElem?_eq_some_getD _ 0 dummyComparison
      (by rw [compareScores_length]; norm_num)))

-- ============================================
-- Claim C3: scenario record (168 kg / 46 bhp / 399 cc / 820 mm seat)
-- ============================================

/-- Any rule total of at least 9 clamps and rounds to at least 8.5 (in fact
to at least 9). -/
theorem clamp_roundHalf_ge_nine {x : ℚ} (h : 9 ≤ x) :
    17 / 2 ≤ clamp (roundHalf x) 1 10 := by
  have h9 : ((9 : ℤ) : ℚ) ≤ roundHalf x := le_roundHalf (by push_cast; linarith)
  push_cast at h9
  unfold clamp
  refine le_min (by norm_num) (le_trans (by linarith) (le_max_right 1 (roundHalf x)))

/-- Counterexample to C3 as stated: demoBike has exactly the features of the
scenario record, its braking score is at least 8.5, but its daily traffic
ease score is 4.5, not at least 6.5 (the claim asserts at least 6.5). -/
theorem claim3_counterexample :
    demoBike.kerbWeight = 168 ∧ demoBike.power = 46 ∧ demoBike.engineCC = 399 ∧
    demoBike.absType = AbsType.dualChannel ∧ demoBike.frontBrake = BrakeType.disc ∧
    demoBike.rearBrake = BrakeType.disc ∧
    demoBike.rearSuspension = RearSuspensionType.monoshock ∧
    demoBike.rearSuspensionTravel = some 150 ∧ demoBike.seatHeight = 820 ∧
    scoreDailyTrafficEase demoBike = 9 / 2 ∧
    ¬(13 / 2 ≤ scoreDailyTrafficEase demoBike) := by
  with_unfolding_all decide

/-- C3 (amended).  For every record with kerb weight 168, power 46, engine
399 cc and seat height 820, scoreDailyTrafficEase returns exactly 4.5 (the
weight bonus +0.5 is cancelled by the tall-seat and aggressive
power-to-weight penalties of 0.5 each), and with dual-channel ABS and disc
brakes front and rear, scoreBrakingSafetyConfidence returns at least 8.5. -/
theorem claim3_amended (b : Motorcycle)
    (hk : b.kerbWeight = 168) (hp : b.power = 46) (hcc : b.engineCC = 399)
    (hs : b.seatHeight = 820) (ha : b.absType = AbsType.dualChannel)
    (hf : b.frontBrake = BrakeType.disc) (hr : b.rearBrake = BrakeType.disc) :
    scoreDailyTrafficEase b = 9 / 2 ∧ 17 / 2 ≤ scoreBrakingSafetyConfidence b := by
  constructor
  · unfold scoreDailyTrafficEase
    rw [hk, hp, hcc, hs]
    with_unfolding_all decide
  · unfold scoreBrakingSafetyConfidence
    rw [ha, hf, hr]
    rw [if_pos rfl, if_pos rfl, if_pos rfl]
    split_ifs <;> apply clamp_roundHalf_ge_nine <;> norm_num

theorem claim3_witness :
    demoBike.kerbWeight = 168 ∧ demoBike.power = 46 ∧ demoBike.engineCC = 399 ∧
    demoBike.seatHeight = 820 ∧ demoBike.absType = AbsType.dualChannel ∧
    demoBike.frontBrake = BrakeType.disc ∧ demoBike.rearBrake = BrakeType.disc ∧
    (scoreDailyTrafficEase demoBike = 9 / 2 ∧
     17 / 2 ≤ scoreBrakingSafetyConfidence demoBike) :=
  ⟨rfl, rfl, rfl, rfl, rfl, rfl, rfl,
   claim3_amended demoBike rfl rfl rfl rfl rfl rfl rfl⟩

-- ============================================
-- Claim C4: per-factor confidence derivation
-- ============================================

/-- Record with low base confidence and both optional inputs present, used
to refute the "capped at medium (a low base stays low)" reading of C4. -/
def lowConfBike : Motorcycle := { demoBike with confidence := Confidence.low }

/-- Counterexample to C4 as stated: with a low base confidence and both
optional inputs present, getFactorConfidences reports medium (not low) for
ownership practicality and long-term suitability; the claimed cap-at-medium
rule would report low. -/
theorem claim4_counterexample :
    truthy lowConfBike.rearSuspensionTravel ∧
    lowConfBike.handlebarType.isSome = true ∧
    lowConfBike.confidence = Confidence.low ∧
    (getFactorConfidences lowConfBike).ownershipPracticality = Confidence.medium ∧
    (getFactorConfidences lowConfBike).longTermSuitability = Confidence.medium ∧
    (getFactorConfidences lowConfBike).ownershipPracticality ≠ lowConfBike.confidence := by
  with_unfolding_all decide

/-- C4 (amended).  When both optional inputs (rear suspension travel,
handlebar type) are present, every factor inherits the base confidence
label, except ownership practicality and long-term suitability, which are
always medium regardless of the base label, and heat management, which is
the base label when an externally supplied (truthy) heat rating is present
and low otherwise. -/
theorem claim4_amended (b : Motorcycle) (ht : truthy b.rearSuspensionTravel)
    (hh : b.handlebarType.isSome = true) :
    getFactorConfidences b =
      { dailyTrafficEase := b.confidence
        brakingSafetyConfidence := b.confidence
        primaryPillionComfort := b.confidence
        highwayStability := b.confidence
        riderComfort := b.confidence
        suspensionCompliance := b.confidence
        funEngagement := b.confidence
        heatManagement :=
          if truthy b.heatManagementRating then b.confidence else Confidence.low
        ownershipPracticality := Confidence.medium
        longTermSuitability := Confidence.medium } := by
  simp only [getFactorConfidences]
  rw [if_pos ht, if_pos hh]

theorem claim4_witness :
    truthy demoBike.rearSuspensionTravel ∧ demoBike.handlebarType.isSome = true ∧
    getFactorConfidences demoBike =
      { dailyTrafficEase := demoBike.confidence
        brakingSafetyConfidence := demoBike.confidence
        primaryPillionComfort := demoBike.confidence
        highwayStability := demoBike.confidence
        riderComfort := demoBike.confidence
        suspensionCompliance := demoBike.confidence
        funEngagement := demoBike.confidence
        heatManagement :=
          if truthy demoBike.heatManagementRating then demoBike.confidence
          else Confidence.low
        ownershipPracticality := Confidence.medium
        longTermSuitability := Confidence.medium } :=
  ⟨by with_unfolding_all decide, by with_unfolding_all decide,
   claim4_amended demoBike (by with_unfolding_all decide) (by with_unfolding_all decide)⟩

-- ============================================
-- Claim C5: record missing torque, wheelbase and handlebar type
-- ============================================

/-- The downgrade step never yields high. -/
theorem downgrade_ne_high (c : Confidence) : downgrade c ≠ Confidence.high := by
  unfold downgrade
  split_ifs <;> decide

/-- A record with every required and optional field present and plausible
except torque, wheelbase and handlebar type, which are missing. -/
def partC5 : PartialMotorcycle where
  brand := some "Honda"
  model := some "CB350"
  variant := none
  year := none
  engineCC := some 348
  power := some 21
  torque := none
  kerbWeight := some 181
  seatHeight := some 800
  wheelbase := none
  groundClearance := some 166
  fuelCapacity := some 15
  frontBrake := some BrakeType.disc
  rearBrake := some BrakeType.disc
  absType := some AbsType.dualChannel
  frontTyreWidth := some 100
  rearTyreWidth := some 130
  frontSuspension := some "telescopic"
  rearSuspension := some RearSuspensionType.twin
  rearSuspensionTravel := some 120
  handlebarType := none
  exShowroomPrice := some 200000
  reviewSummary := none
  heatManagementRating := none
  confidence := some Confidence.high
  searchQuery := some "cb350"

/-- Counterexample to C5 as stated: a record that is complete and plausible
except for missing torque, wheelbase and handlebar type validates with
exactly TWO warnings (torque and wheelbase), not three — the validator has
no check for the handlebar type at all. -/
theorem claim5_counterexample :
    partC5.torque = none ∧ partC5.wheelbase = none ∧ partC5.handlebarType = none ∧
    (validateMotorcycle partC5).errors = [] ∧
    (validateMotorcycle partC5).warnings.map (fun w => w.code) =
      ["MISSING_TORQUE", "MISSING_WHEELBASE"] ∧
    (validateMotorcycle partC5).warnings.length = 2 ∧
    ¬((validateMotorcycle partC5).warnings.length = 3) := by
  with_unfolding_all decide

/-- C5 (amended).  A record with all required and optional fields present
and plausible except missing torque, wheelbase and handlebar type validates
with exactly two warnings (MISSING_TORQUE, MISSING_WHEELBASE — the validator
never checks the handlebar type) and zero errors, and getFactorConfidences
after default-filling gives rider comfort and fun/engagement a confidence
label strictly below high (hence at most medium). -/
theorem claim5_amended (p : PartialMotorcycle) (cc pw k sh : ℚ)
    (hb : strPresent p.brand = true) (hm : strPresent p.model = true)
    (hcc : p.engineCC = some cc) (hcc1 : 0 < cc) (hcc2 : cc ≤ 2000)
    (hpw : p.power = some pw) (hpw1 : 0 < pw) (hpw2 : pw ≤ 200)
    (htq : p.torque = none)
    (hk : p.kerbWeight = some k) (hk1 : 80 ≤ k) (hk2 : k ≤ 400)
    (hsh : p.seatHeight = some sh) (hsh1 : 600 ≤ sh) (hsh2 : sh ≤ 1000)
    (hwb : p.wheelbase = none)
    (hgc : numPos p.groundClearance = true)
    (habs : p.absType.isSome = true)
    (hft : numPos p.frontTyreWidth = true) (hrt : numPos p.rearTyreWidth = true)
    (hfsu : strPresent p.frontSuspension = true) (hrsu : p.rearSuspension.isSome = true)
    (hhb : p.handlebarType = none)
    (hfb : p.frontBrake.isSome = true) (hrb : p.rearBrake.isSome = true) :
    (validateMotorcycle p).errors = [] ∧
    (validateMotorcycle p).warnings.map (fun w => w.code) =
      ["MISSING_TORQUE", "MISSING_WHEELBASE"] ∧
    (validateMotorcycle p).warnings.length = 2 ∧
    (getFactorConfidences (fillMissingData p)).riderComfort ≠ Confidence.high ∧
    (getFactorConfidences (fillMissingData p)).funEngagement ≠ Confidence.high := by
  have hccp : numPos p.engineCC = true := by
    rw [hcc]
    exact decide_eq_true hcc1
  have hpwp : numPos p.power = true := by
    rw [hpw]
    exact decide_eq_true hpw1
  have hkp : numPos p.kerbWeight = true := by
    rw [hk]
    exact decide_eq_true (by linarith)
  have hshp : numPos p.seatHeight = true := by
    rw [hsh]
    exact decide_eq_true (by linarith)
  have htqp : numPos p.torque = false := by rw [htq]; rfl
  have hwbp : numPos p.wheelbase = false := by rw [hwb]; rfl
  have hccw : ¬(p.engineCC.getD 0 > 2000) := by rw [hcc]; simp; linarith
  have hpww : ¬(p.power.getD 0 > 200) := by rw [hpw]; simp; linarith
  have hkw : ¬(p.kerbWeight.getD 0 < 80 ∨ p.kerbWeight.getD 0 > 400) := by
    rw [hk]
    simp
    constructor <;> linarith
  have hshw : ¬(p.seatHeight.getD 0 < 600 ∨ p.seatHeight.getD 0 > 1000) := by
    rw [hsh]
    simp
    constructor <;> linarith
  refine ⟨?_, ?_, ?_, ?_, ?_⟩
  · simp [validateMotorcycle, hb, hm, hccp, hpwp, hkp, hfb, hrb]
  · simp [validateMotorcycle, hb, hm, hccp, hpwp, hkp, hshp, htqp, hwbp, hgc, habs,
      hft, hrt, hfsu, hrsu, hfb, hrb, hccw, hpww, hkw, hshw]
  · simp [validateMotorcycle, hb, hm, hccp, hpwp, hkp, hshp, htqp, hwbp, hgc, habs,
      hft, hrt, hfsu, hrsu, hfb, hrb, hccw, hpww, hkw, hshw]
  · have hfill : (fillMissingData p).handlebarType = none := hhb
    by_cases htr : truthy (fillMissingData p).rearSuspensionTravel <;>
      simp [getFactorConfidences, hfill, htr, downgrade_ne_high]
  · have hfill : (fillMissingData p).handlebarType = none := hhb
    by_cases htr : truthy (fillMissingData p).rearSuspensionTravel <;>
      simp [getFactorConfidences, hfill, htr, downgrade_ne_high]

theorem claim5_witness :
    (validateMotorcycle partC5).errors = [] ∧
    (validateMotorcycle partC5).warnings.map (fun w => w.code) =
      ["MISSING_TORQUE", "MISSING_WHEELBASE"] ∧
    (validateMotorcycle partC5).warnings.length = 2 ∧
    (getFactorConfidences (fillMissingData partC5)).riderComfort ≠ Confidence.high ∧
    (getFactorConfidences (fillMissingData partC5)).funEngagement ≠ Confidence.high :=
  claim5_amended partC5 348 21 181 800
    (by with_unfolding_all decide) (by with_unfolding_all decide)
    rfl (by with_unfolding_all decide) (by with_unfolding_all decide)
    rfl (by with_unfolding_all decide) (by with_unfolding_all decide)
    rfl
    rfl (by with_unfolding_all decide) (by with_unfolding_all decide)
    rfl (by with_unfolding_all decide) (by with_unfolding_all decide)
    rfl
    (by with_unfolding_all decide)
    (by with_unfolding_all decide)
    (by with_unfolding_all decide) (by with_unfolding_all decide)
    (by with_unfolding_all decide) (by with_unfolding_all decide)
    rfl
    (by with_unfolding_all decide) (by with_unfolding_all decide)

-- ============================================
-- Claim C9: fillMissingData and re-validation
-- ============================================

/-- The string fallback keeps present non-empty strings and otherwise
substitutes the non-empty default. -/
theorem strOr_present (o : Option String) (d : String) (hd : d.isEmpty = false) :
    strPresent (some (strOr o d)) = true := by
  unfold strPresent strOr
  cases o with
  | none => simp [hd]
  | some str => by_cases hs : str.isEmpty <;> simp [hs, hd]

/-- The numeric fallback yields a positive number whenever the present value
(if any) is non-negative and the default is positive. -/
theorem numOr_pos (o : Option ℚ) (d : ℚ) (hd : 0 < d) (h : 0 ≤ o.getD 0) :
    numPos (some (numOr o d)) = true := by
  unfold numPos numOr
  cases o with
  | none => simpa using hd
  | some x =>
    by_cases hx : x = 0
    · simp [hx]
      exact hd
    · simp only [Option.getD_some] at h
      simp [hx]
      exact lt_of_le_of_ne h (Ne.symm hx)

/-- The all-absent partial record. -/
def blankPartial : PartialMotorcycle where
  brand := none
  model := none
  variant := none
  year := none
  engineCC := none
  power := none
  torque := none
  kerbWeight := none
  seatHeight := none
  wheelbase := none
  groundClearance := none
  fuelCapacity := none
  frontBrake := none
  rearBrake := none
  absType := none
  frontTyreWidth := none
  rearTyreWidth := none
  frontSuspension := none
  rearSuspension := none
  rearSuspensionTravel := none
  handlebarType := none
  exShowroomPrice := none
  reviewSummary := none
  heatManagementRating := none
  confidence := none
  searchQuery := none

/-- Partial record with a present negative engine displacement. -/
def negEnginePartial : PartialMotorcycle := { blankPartial with engineCC := some (-1) }

/-- Counterexample to C9 as stated: JavaScript `||` keeps any truthy present
value, so fillMissingData preserves a negative engineCC (-1) and the filled
record still fails validation with INVALID_ENGINE. -/
theorem claim9_counterexample :
    (fillMissingData negEnginePartial).engineCC = -1 ∧
    (validateMotorcycle (toPartialMotorcycle (fillMissingData negEnginePartial))).isValid
      = false ∧
    (validateMotorcycle (toPartialMotorcycle (fillMissingData negEnginePartial))).errors.map
      (fun e => e.code) = ["INVALID_ENGINE"] := by
  with_unfolding_all decide

/-- C9 (amended).  fillMissingData produces a record that re-validates with
an empty error list whenever the present values of engineCC, power and
kerbWeight (the only error-checked numeric fields) are non-negative; a
present negative value is kept by the JavaScript `||` fallback and still
fails validation. -/
theorem claim9_amended (p : PartialMotorcycle)
    (hcc : 0 ≤ p.engineCC.getD 0) (hpw : 0 ≤ p.power.getD 0)
    (hk : 0 ≤ p.kerbWeight.getD 0) :
    (validateMotorcycle (toPartialMotorcycle (fillMissingData p))).errors = [] ∧
    (validateMotorcycle (toPartialMotorcycle (fillMissingData p))).isValid = true := by
  have h1 : strPresent (some (strOr p.brand "Unknown")) = true :=
    strOr_present _ _ (by decide)
  have h2 : strPresent (some (strOr p.model "Unknown")) = true :=
    strOr_present _ _ (by decide)
  have h3 : numPos (some (numOr p.engineCC 150)) = true := numOr_pos _ _ (by norm_num) hcc
  have h4 : numPos (some (numOr p.power 10)) = true := numOr_pos _ _ (by norm_num) hpw
  have h5 : numPos (some (numOr p.kerbWeight 140)) = true := numOr_pos _ _ (by norm_num) hk
  constructor <;>
    simp [validateMotorcycle, toPartialMotorcycle, fillMissingData, h1, h2, h3, h4, h5]

theorem claim9_witness :
    0 ≤ blankPartial.engineCC.getD 0 ∧ 0 ≤ blankPartial.power.getD 0 ∧
    0 ≤ blankPartial.kerbWeight.getD 0 ∧
    ((validateMotorcycle (toPartialMotorcycle (fillMissingData blankPartial))).errors = [] ∧
     (validateMotorcycle (toPartialMotorcycle (fillMissingData blankPartial))).isValid = true) :=
  ⟨by with_unfolding_all decide, by with_unfolding_all decide, by with_unfolding_all decide,
   claim9_amended blankPartial (by with_unfolding_all decide) (by with_unfolding_all decide)
     (by with_unfolding_all decide)⟩

end Motologix

